import Mathlib

set_option autoImplicit false

/-!
Verification development for the Pokemon-Card-Image-Scraper repository
(`src/scraper.py`).  The Python source is shallowly embedded: pure string
manipulation becomes functions over `List Char` / `String`, the filesystem
and the progress set become explicit state records, and network traffic is
driven by explicit oracles (one outcome per request).  The regular
expressions of the source are modelled by equivalent string scanners whose
behaviour is matched against `re.search` semantics on the inputs arising in
the program.
-/

namespace Scraper

/-! ### Basic character classes and Python-style string primitives -/

/-- `\w` of Python's `re` restricted to the ASCII alphabet used by the site
slugs: alphanumeric or underscore. -/
def isWordChar (c : Char) : Bool := c.isAlphanum || c = '_'

/-- Whitespace as recognised by Python's `str.strip` / `\s` (common ASCII). -/
def isSpaceChar (c : Char) : Bool := c = ' ' || c = '\t' || c = '\n' || c = '\r'

/-- Longest all-digit suffix of a character list (empty when the last
character is not a digit). -/
def trailingDigitsL (l : List Char) : List Char :=
  (l.reverse.takeWhile Char.isDigit).reverse

/-- First maximal run of digits in a character list, if any: the capture of
regexes of the form `...(\d+)...` whose leftmost match starts at the first
digit of the string. -/
def firstDigitRunL (l : List Char) : Option (List Char) :=
  match l.dropWhile (fun c => !c.isDigit) with
  | [] => none
  | c :: rest => some (c :: rest.takeWhile Char.isDigit)

/-- `firstDigitRunL` lifted to `String`. -/
def firstDigitRun (s : String) : Option String :=
  (firstDigitRunL s.data).map List.asString

/-- Value of an all-digit string, as computed by Python's `int`. -/
def digitsToNat (s : String) : Nat :=
  s.data.foldl (fun n c => n * 10 + (c.toNat - 48)) 0

/-- Python's `str.zfill`: left-pad with `'0'` up to width `w` (strings of
digits only in this program, so no sign handling is needed). -/
def zfill (s : String) (w : Nat) : String :=
  ⟨List.replicate (w - s.length) '0' ++ s.data⟩

/-- Python's `str.isdigit` for the ASCII digits used here: non-empty and
all digits. -/
def pyIsDigit (s : String) : Bool := !s.isEmpty && s.data.all Char.isDigit

/-- Python's `x or y` over optional strings: `None` and `""` are falsy. -/
def pyOr (a b : Option String) : Option String :=
  match a with
  | none => b
  | some s => if s.isEmpty then b else some s

/-- Truthiness of an optional string in Python (`None` and `""` falsy). -/
def pyTruthy (a : Option String) : Bool :=
  match a with
  | none => false
  | some s => !s.isEmpty

/-- Python's `str.strip`: drop leading and trailing whitespace. -/
def pyStrip (s : String) : String :=
  ⟨((s.data.dropWhile isSpaceChar).reverse.dropWhile isSpaceChar).reverse⟩

/-- Python's `url.rstrip('/')`. -/
def rstripSlash (s : String) : String :=
  ⟨(s.data.reverse.dropWhile (fun c => c = '/')).reverse⟩

/-- Python's `str.split(sep)` for a one-character separator. -/
def splitCharL (c : Char) : List Char → List (List Char)
  | [] => [[]]
  | x :: rest =>
    let r := splitCharL c rest
    if x = c then [] :: r
    else
      match r with
      | [] => [[x]]
      | h :: t => (x :: h) :: t

/-- Last element of `url.rstrip('/').split('/')` (Python's `split` always
yields a non-empty list, so the `[]` default is never taken). -/
def lastSegment (url : String) : String :=
  ⟨(splitCharL '/' (rstripSlash url).data).getLastD []⟩

/-- The part of a list before the first occurrence of `pat`
(`s.split(pat)[0]` in Python; the whole list when `pat` is absent). -/
def takeUntilPattern (pat : List Char) : List Char → List Char
  | [] => []
  | x :: rest =>
    if pat.isPrefixOf (x :: rest) then []
    else x :: takeUntilPattern pat rest

/-- Occurrence test for a pattern (`pat in s` in Python, with the
non-empty literal patterns used by the anchor filter). -/
def containsPattern (pat : List Char) : List Char → Bool
  | [] => pat.isEmpty
  | x :: rest => pat.isPrefixOf (x :: rest) || containsPattern pat rest

/-- Substring test (`pat in s`). -/
def strContains (s pat : String) : Bool :=
  containsPattern pat.data s.data

/-- Python's `str.startswith`. -/
def strStartsWith (s pre : String) : Bool := pre.data.isPrefixOf s.data

/-- Python's `str.endswith`. -/
def strEndsWith (s suf : String) : Bool := suf.data.isSuffixOf s.data

/-- ASCII lowercasing (`str.lower`). -/
def lowerStr (s : String) : String := ⟨s.data.map Char.toLower⟩

/-- `s.split(sep)[0]` for the single character separator `'?'`:
everything before the first `'?'`. -/
def stripQueryL (l : List Char) : List Char :=
  l.takeWhile (fun c => c ≠ '?')

/-- `img_url.split('?')[0]`. -/
def stripQuery (s : String) : String := ⟨stripQueryL s.data⟩

/-- Python's `str.title` on the ASCII fragment used here: uppercase every
alphabetic character that follows a non-alphabetic one, lowercase the
rest. -/
def titleCaseL : List Char → Bool → List Char
  | [], _ => []
  | c :: rest, prevAlpha =>
    (if c.isAlpha then (if prevAlpha then c.toLower else c.toUpper) else c)
      :: titleCaseL rest c.isAlpha

def titleCase (s : String) : String := ⟨titleCaseL s.data false⟩

/-- `name.replace('-', ' ')`. -/
def replaceDashSpace (s : String) : String :=
  ⟨s.data.map (fun c => if c = '-' then ' ' else c)⟩

/-! ### A model of `urllib.parse.urljoin`

Models `urljoin` for the URL shapes this program produces: absolute
`http(s)` URLs are returned unchanged, scheme-relative (`//…`) references
adopt the base's scheme, root-relative (`/…`) references are resolved
against the base's origin, the empty reference yields the base, and any
other reference is appended to the base's directory (the base up to its
last `/`).  Dot-segment normalisation is not modelled; no reference with
dot segments occurs in this development. -/

def schemeOf (base : String) : String :=
  if strStartsWith base "https://" then "https" else "http"

/-- `scheme://host` of a base URL. -/
def originOf (base : String) : String :=
  if strStartsWith base "https://" then
    "https://" ++ ⟨(base.data.drop 8).takeWhile (fun c => c ≠ '/')⟩
  else if strStartsWith base "http://" then
    "http://" ++ ⟨(base.data.drop 7).takeWhile (fun c => c ≠ '/')⟩
  else ⟨base.data.takeWhile (fun c => c ≠ '/')⟩

/-- The base URL up to and including its last `/`. -/
def dirOf (base : String) : String :=
  ⟨(base.data.reverse.dropWhile (fun c => c ≠ '/')).reverse⟩

def urljoin (base url : String) : String :=
  if strStartsWith url "http://" || strStartsWith url "https://" then url
  else if strStartsWith url "//" then schemeOf base ++ ":" ++ url
  else if strStartsWith url "/" then originOf base ++ url
  else if url.isEmpty then base
  else dirOf base ++ url

/-! ### The card-number regular expressions of `_extract_card_details_from_page`

Each `patterns` entry of `scraper.py` (lines 527–533) is modelled by a
scanner returning the capture group of the leftmost `re.search` match. -/

/-- `r'Card[-_](\d+)$'` with `re.IGNORECASE`: the match requires the whole
digit suffix to be preceded by `Card-` or `Card_` (any case); the capture
is the maximal all-digit suffix. -/
def matchCardSuffixL (l : List Char) : Option (List Char) :=
  let r := l.reverse
  let d := r.takeWhile Char.isDigit
  let rest := r.dropWhile Char.isDigit
  if d.isEmpty then none
  else
    match rest with
    | sep :: more =>
      if (sep = '-' || sep = '_')
          && ((more.take 4).map Char.toLower = ['d', 'r', 'a', 'c']) then
        some d.reverse
      else none
    | [] => none

/-- `r'[-_](\d+)$'`: maximal all-digit suffix preceded by `-` or `_`. -/
def matchSepSuffixL (l : List Char) : Option (List Char) :=
  let r := l.reverse
  let d := r.takeWhile Char.isDigit
  let rest := r.dropWhile Char.isDigit
  if d.isEmpty then none
  else
    match rest with
    | sep :: _ => if sep = '-' || sep = '_' then some d.reverse else none
    | [] => none

/-- `r'#(\d+)'`: digits immediately after the first `#` that is followed by
at least one digit. -/
def matchHashDigitsL : List Char → Option (List Char)
  | [] => none
  | '#' :: rest =>
    let d := rest.takeWhile Char.isDigit
    if d.isEmpty then matchHashDigitsL rest else some d
  | _ :: rest => matchHashDigitsL rest

/-- `r'(?:No\.?|#)?\s*(\d+)'`: the optional prefix and `\s*` do not affect
the capture, which is the first maximal digit run (the pattern matches
exactly when the string contains a digit). -/
def matchLooseNumberL (l : List Char) : Option (List Char) := firstDigitRunL l

/-- `r'\b(\d{1,3})\b'`: the first maximal digit run of length at most 3
delimited by word boundaries (string edges or non-word characters).
`run` is the digit run currently open (reversed); `ok` records whether a
word boundary preceded its first character. -/
def scanBoundedRun : List Char → Bool → List Char → Option (List Char)
  | run, ok, [] =>
    if !run.isEmpty && ok && run.length ≤ 3 then some run.reverse else none
  | run, ok, c :: rest =>
    if c.isDigit then
      if run.isEmpty then scanBoundedRun [c] ok rest
      else scanBoundedRun (c :: run) ok rest
    else
      if !run.isEmpty && ok && run.length ≤ 3 && !isWordChar c then
        some run.reverse
      else scanBoundedRun [] (!isWordChar c) rest

def matchBoundedRunL (l : List Char) : Option (List Char) :=
  scanBoundedRun [] true l

/-- The priority-ordered URL-pattern cascade of lines 527–540: first match
wins; each capture is an all-digit string. -/
def extractNumberFromUrlPart (lastPart : String) : Option String :=
  match matchCardSuffixL lastPart.data with
  | some n => some ⟨n⟩
  | none =>
  match matchSepSuffixL lastPart.data with
  | some n => some ⟨n⟩
  | none =>
  match matchHashDigitsL lastPart.data with
  | some n => some ⟨n⟩
  | none =>
  match matchLooseNumberL lastPart.data with
  | some n => some ⟨n⟩
  | none =>
  (matchBoundedRunL lastPart.data).map List.asString

/-- `re.search(r'(\d+)(?:-\w+)?$', last_part)` (container fallback, line
449): the leftmost digit run that is followed either by the end of the
string or by a single `-<word>` suffix reaching the end.  `run` is the
digit run currently open (reversed). -/
def scanDigitsOptWord : List Char → List Char → Option (List Char)
  | run, [] => if run.isEmpty then none else some run.reverse
  | run, c :: rest =>
    if c.isDigit then scanDigitsOptWord (c :: run) rest
    else if !run.isEmpty && c = '-' && !rest.isEmpty && rest.all isWordChar then
      some run.reverse
    else scanDigitsOptWord [] rest

def matchDigitsOptWordL (l : List Char) : Option (List Char) :=
  scanDigitsOptWord [] l

/-! ### Generic helpers over selector lists -/

/-- First `some` produced by `f` along a list (the `for … : if …: break`
pattern of the source). -/
def firstSome {α β : Type} (f : α → Option β) : List α → Option β
  | [] => none
  | a :: rest =>
    match f a with
    | some b => some b
    | none => firstSome f rest

/-! ### Page, element and record models -/

/-- An element matched by one of the number selectors: its stripped text
and the three data attributes probed by lines 594–599. -/
structure NumElem where
  text : String
  dataNumber : Option String
  dataCardNumber : Option String
  dataNum : Option String

/-- An `<img>` element: the three URL attributes and the `alt` text. -/
structure ImgElem where
  src : Option String
  dataSrc : Option String
  dataLazySrc : Option String
  alt : Option String

/-- A card container (`.card-container, .card-item, .card-wrapper,
.grid-item`): its first link, the name/number sub-elements and its image. -/
structure Container where
  linkHref : Option String
  nameElem : Option String
  numberElem : Option String
  img : Option ImgElem

/-- A parsed Pokellector page, abstracted as the responses of the CSS
queries the extractor performs on it. -/
structure PokPage where
  numberSelectorElems : String → List NumElem
  nameSelectorText : String → Option String
  imgSelectorHit : String → Option ImgElem
  containers : List Container
  anchorHrefs : List String
  hasNext : Bool

/-- A set descriptor as consumed by `get_cards_from_set`. -/
structure SetInfo where
  name : String
  code : String
  url : String
deriving DecidableEq, Repr

/-- A Pokellector card record (the dict built at lines 471–478 and
697–704). -/
structure CardP where
  name : String
  number : String
  imgUrl : String
  cardUrl : String
  setCode : String
  setName : String
deriving DecidableEq, Repr

/-! ### Number extraction from page content (lines 543–610) -/

/-- The ordered selector list of lines 546–579 (duplicates included). -/
def numberSelectors : List String :=
  [".card-number", ".number", ".card-info", ".card-details",
   "p:contains(\"Card Number\")", "th:contains(\"Number\") + td",
   ".card-num", ".card-number", ".number", ".card-info-number",
   ".card-details-number", ".card-data-number", ".card-meta-number",
   ".card-header-number", ".card-footer-number", "span:contains(\"No.\")",
   "span:contains(\"#\")", "div:contains(\"Card Number:\")",
   "div:contains(\"Card No:\")", "div:contains(\"Number:\")",
   "div:contains(\"No.:\")", "div:contains(\"#:\")",
   "td:contains(\"Card Number\") + td", "td:contains(\"Card No\") + td",
   "td:contains(\"Number\") + td", "td:contains(\"No.\") + td",
   "td:contains(\"#\") + td", "li:contains(\"Card Number\")",
   "li:contains(\"Card No\")", "li:contains(\"Number\")",
   "li:contains(\"No.\")", "li:contains(\"#\")"]

/-- Number recovered from one element: the text regex
`r'(?:#|No\.?\s*)?(\d+)(?:\s*/\s*\d+)?'` captures the first digit run
(preferring the numerator of a `current/total` pair); when the text holds
no digit, the data attributes are probed in order. -/
def elemNumber (e : NumElem) : Option String :=
  match firstDigitRun e.text with
  | some n => some n
  | none =>
  match e.dataNumber.bind firstDigitRun with
  | some n => some n
  | none =>
  match e.dataCardNumber.bind firstDigitRun with
  | some n => some n
  | none => e.dataNum.bind firstDigitRun

/-- The scan of the fixed selector list over page content. -/
def scanNumberSelectors (pg : PokPage) : Option String :=
  firstSome (fun sel => firstSome elemNumber (pg.numberSelectorElems sel))
    numberSelectors

/-- The whole card-number cascade of `_extract_card_details_from_page`:
URL patterns first, then page content. -/
def pokPageNumber (pg : PokPage) (lastPart : String) : Option String :=
  match extractNumberFromUrlPart lastPart with
  | some n => some n
  | none => scanNumberSelectors pg

/-! ### Name extraction and cleanup (lines 626–658) -/

def nameSelectors : List String :=
  ["h1.entry-title", "h1", ".card-title", ".card-name", ".title",
   "h1.card-title", "h1.product-title", "h1.entry-title", "h1.title",
   "h1.product-name", "h1.product_title"]

/-- `re.sub(r'\s*[\[\{].*?[\]\}]', '', name)`: every bracketed/braced
group (up to the nearest closer of either kind), together with the
whitespace immediately preceding it, is removed.  `acc` is the reversed
prefix kept so far; while `skipping`, `pending` buffers the reversed
characters consumed since the pending opener, which are restored verbatim
when no closer follows (the regex then never matches at that opener). -/
def cutBracketGo : List Char → List Char → Bool → List Char → List Char
  | acc, _, false, [] => acc.reverse
  | acc, pending, true, [] => acc.reverse ++ pending.reverse
  | acc, _, false, c :: rest =>
    if c = '[' || c = '{' then cutBracketGo acc [c] true rest
    else cutBracketGo (c :: acc) [] false rest
  | acc, pending, true, c :: rest =>
    if c = ']' || c = '}' then
      cutBracketGo (acc.dropWhile isSpaceChar) [] false rest
    else cutBracketGo acc (c :: pending) true rest

def cutBracket (l : List Char) : List Char := cutBracketGo [] [] false l

/-- `re.sub(r'\s*#\d+.*$', '', name)`: everything from the first `#`
followed by a digit (plus preceding whitespace) to the end is removed. -/
def cutHashNum (acc : List Char) : List Char → List Char
  | [] => acc.reverse
  | c :: rest =>
    if c = '#' && (match rest with | d :: _ => d.isDigit | [] => false) then
      (acc.dropWhile isSpaceChar).reverse
    else cutHashNum (c :: acc) rest

/-- The name post-processing of lines 646–648. -/
def cleanName (s : String) : String :=
  pyStrip ⟨cutHashNum [] (cutBracket s.data)⟩

/-- The name-selector loop: the first selector whose cleaned text is
non-empty wins. -/
def pokNameFromSelectors (pg : PokPage) : Option String :=
  firstSome
    (fun sel =>
      match pg.nameSelectorText sel with
      | none => none
      | some t =>
        let cleaned := cleanName t
        if cleaned.isEmpty then none else some cleaned)
    nameSelectors

/-- The full name cascade of lines 626–658 (`number` is the leading-zero
stripped card number). -/
def pokExtractName (pg : PokPage) (lastPart number : String) : String :=
  match pokNameFromSelectors pg with
  | some nm => nm
  | none =>
    let namePart : String := ⟨takeUntilPattern "-Card-".data lastPart.data⟩
    if !namePart.isEmpty then titleCase (replaceDashSpace namePart)
    else "Card-" ++ number

/-! ### Image extraction (lines 660–692) -/

def imgSelectors : List String :=
  ["div.card-image img", ".card-image img", ".product-image img",
   ".card-img img", "img.card-image", "img.product-image",
   "img.wp-post-image", "img.attachment-full", "img.size-full",
   "img[src*=\"cards\"]", "img[src*=\"card\"]", "img[src*=\"image\"]",
   "img[src*=\"images\"]"]

def endsWithImageExt (s : String) : Bool :=
  strEndsWith s ".jpg" || strEndsWith s ".jpeg" || strEndsWith s ".png" ||
    strEndsWith s ".webp"

/-- The image-selector loop: each hit overwrites the running `img_url`
(after URL resolution); the loop stops early only when the current URL
ends in a known image extension. -/
def pokImageLoop (pg : PokPage) (base : String) :
    List String → Option String → Option String
  | [], acc => acc
  | sel :: rest, acc =>
    match pg.imgSelectorHit sel with
    | none => pokImageLoop pg base rest acc
    | some img =>
      match pyOr img.src (pyOr img.dataSrc img.dataLazySrc) with
      | none => pokImageLoop pg base rest none
      | some s0 =>
        let s1 :=
          if !s0.isEmpty && !(strStartsWith s0 "http://"
              || strStartsWith s0 "https://") then
            urljoin base s0
          else s0
        if !s1.isEmpty && endsWithImageExt s1 then some s1
        else pokImageLoop pg base rest (some s1)

/-- Image cascade result before query stripping (`None` when no selector
produced a truthy URL). -/
def pokExtractImage (pg : PokPage) (base : String) : Option String :=
  match pokImageLoop pg base imgSelectors none with
  | none => none
  | some s => if s.isEmpty then none else some s

/-! ### `_extract_card_details_from_page` (lines 509–708) -/

def extractCardDetailsFromPage (pg : PokPage) (base cardUrl : String)
    (si : SetInfo) : Option CardP :=
  let lastPart := lastSegment cardUrl
  match pokPageNumber pg lastPart with
  | none => none
  | some n0 =>
    let n1 := Nat.repr (digitsToNat n0)
    let cardName := pokExtractName pg lastPart n1
    match pokExtractImage pg base with
    | none => none
    | some raw =>
      some { name := cardName
             number := zfill n1 3
             imgUrl := stripQuery raw
             cardUrl := cardUrl
             setCode := si.code
             setName := si.name }

/-! ### `_extract_card_from_container` (lines 425–482) -/

/-- The container card-number cascade (lines 432–451). -/
def containerNumber (c : Container) (cardUrl : String) : String :=
  let num1 := match c.numberElem with
    | some t =>
      match firstDigitRun t with
      | some d => d
      | none => ""
    | none => ""
  if !num1.isEmpty then num1
  else
    let parts := splitCharL '/' (rstripSlash cardUrl).data
    let lastPart : String := ⟨parts.getLastD []⟩
    if parts.length ≥ 2 && pyIsDigit lastPart then lastPart
    else
      match matchDigitsOptWordL lastPart.data with
      | some d => (⟨d⟩ : String)
      | none => ""

/-- The container image URL (lines 453–459): `data-src` preferred, bare
`http` prefix test, no query stripping. -/
def containerImageUrl (c : Container) (base : String) : String :=
  match c.img with
  | none => ""
  | some img =>
    let u := match pyOr img.dataSrc (some (img.src.getD "")) with
      | some s => s
      | none => ""
    if !u.isEmpty && !strStartsWith u "http" then urljoin base u else u

def extractCardFromContainer (c : Container) (base cardUrl : String)
    (si : SetInfo) : Option CardP :=
  let name0 := (c.nameElem.getD "")
  let number := containerNumber c cardUrl
  let imgUrl := containerImageUrl c base
  let cardName :=
    if !name0.isEmpty then name0
    else
      match c.img with
      | some img =>
        if pyTruthy img.alt then pyStrip (img.alt.getD "")
        else if !number.isEmpty then "Card-" ++ number else "Unknown"
      | none => if !number.isEmpty then "Card-" ++ number else "Unknown"
  if number.isEmpty then none
  else
    some { name := cardName
           number := zfill number 3
           imgUrl := imgUrl
           cardUrl := cardUrl
           setCode := si.code
           setName := si.name }

/-! ### TCG Collector extraction (`TCGCollectorScraper.get_cards_from_set`,
lines 1018–1135) -/

/-- A TCG Collector set descriptor. -/
structure TcgSetInfo where
  name : String
  code : String
  url : String
deriving DecidableEq, Repr

/-- A TCG Collector card record (the dict built at lines 1108–1116). -/
structure CardT where
  name : String
  number : String
  setCode : String
  imageUrl : String
  cardUrl : String
  language : String
  source : String
deriving DecidableEq, Repr

/-- A card container of a TCG Collector list page
(`.card-image-grid-item, .card-item`). -/
structure TcgContainer where
  img : Option ImgElem
  nameElem : Option String
  numberElem : Option String
  parentHref : Option String

/-- A parsed TCG Collector list page. -/
structure TcgPage where
  containers : List TcgContainer
  hasNext : Bool

/-- Python's `str.strip('#')`. -/
def stripHash (s : String) : String :=
  ⟨((s.data.dropWhile (fun c => c = '#')).reverse.dropWhile
      (fun c => c = '#')).reverse⟩

/-- The per-container extraction of lines 1066–1119.  `none` models
`continue` (the container is skipped). -/
def tcgExtractFromContainer (base : String) (si : TcgSetInfo)
    (lang : String) (c : TcgContainer) : Option CardT :=
  match c.img with
  | none => none
  | some img =>
    if !pyTruthy img.src && !pyTruthy img.dataSrc then none
    else
      match pyOr img.dataSrc img.src with
      | none => none
      | some u =>
        if u.isEmpty then none
        else
          let imgUrl := urljoin base (stripQuery u)
          let name0 := pyStrip (img.alt.getD "")
          let cardName :=
            if !name0.isEmpty then name0 else (c.nameElem.getD "")
          let cardNumber := match c.numberElem with
            | some t => stripHash t
            | none => ""
          let cardUrl := match c.parentHref with
            | some h => if h.isEmpty then "" else urljoin base h
            | none => ""
          if cardName.isEmpty then none
          else
            some { name := cardName
                   number := if cardNumber.isEmpty then "0" else cardNumber
                   setCode := si.code
                   imageUrl := imgUrl
                   cardUrl := if cardUrl.isEmpty then si.url else cardUrl
                   language := lang
                   source := "tcgcollector" }

/-- The paginated list URL of lines 1031–1038 (`urlencode` keeps the dict
insertion order). -/
def tcgPageUrl (si : TcgSetInfo) (page : Nat) : String :=
  si.url ++ "?releaseDateOrder=newToOld&displayAs=images&page="
    ++ Nat.repr page ++ "&pageSize=100"

/-- The `while page <= max_pages` loop of lines 1027–1133.  The second
component counts pages fetched. -/
def tcgGetCardsGo (fetch : String → Option TcgPage) (base lang : String)
    (si : TcgSetInfo) : Nat → List CardT → Nat → List CardT × Nat
  | page, acc, fetched =>
    if h : page > 50 then (acc, fetched)
    else
      match fetch (tcgPageUrl si page) with
      | none => (acc, fetched + 1)
      | some pg =>
        if pg.containers.isEmpty then (acc, fetched + 1)
        else
          let acc' :=
            acc ++ pg.containers.filterMap (tcgExtractFromContainer base si lang)
          if !pg.hasNext then (acc', fetched + 1)
          else tcgGetCardsGo fetch base lang si (page + 1) acc' (fetched + 1)
  termination_by page => 51 - page
  decreasing_by
    simp_wf
    omega

def tcgGetCardsFromSet (fetch : String → Option TcgPage) (base lang : String)
    (si : TcgSetInfo) : List CardT × Nat :=
  tcgGetCardsGo fetch base lang si 1 [] 0

/-! ### `PokemonCardScraper.get_cards_from_set` (lines 283–423) -/

/-- The candidate list URLs of lines 288–292, in source order. -/
def pokCandidates (url : String) : List String :=
  [rstripSlash url ++ "/cards", rstripSlash url ++ "/all", rstripSlash url]

/-- First candidate URL that fetches and parses, with its page. -/
def firstFetch (w : String → Option PokPage) :
    List String → Option (String × PokPage)
  | [] => none
  | u :: rest =>
    match w u with
    | some pg => some (u, pg)
    | none => firstFetch w rest

/-- URL-substring heuristics of line 347. -/
def cardLinkPatterns : List String := ["/card/", "/set/", "-card-", "-pkmn-"]

/-- Processing of the card containers of one page (lines 378–411):
container extraction first, card-page fetch as fallback, deduplication by
resolved card URL against all cards collected so far. -/
def pokProcessContainers (base : String) (w : String → Option PokPage)
    (si : SetInfo) (conts : List Container) (acc : List CardP) : List CardP :=
  conts.foldl
    (fun acc c =>
      match c.linkHref with
      | none => acc
      | some href =>
        let cardUrl := urljoin base href
        if acc.any (fun cd => cd.cardUrl = cardUrl) then acc
        else
          match extractCardFromContainer c base cardUrl si with
          | some card => acc ++ [card]
          | none =>
            match w cardUrl with
            | none => acc
            | some csoup =>
              match extractCardDetailsFromPage csoup base cardUrl si with
              | some card => acc ++ [card]
              | none => acc)
    acc

/-- The anchor fallback of lines 340–377: anchors filtered by the URL
heuristics, each card page fetched and extracted. -/
def pokProcessAnchors (base : String) (w : String → Option PokPage)
    (si : SetInfo) (hrefs : List String) (acc : List CardP) : List CardP :=
  let cardLinks := hrefs.filter
    (fun h => cardLinkPatterns.any (fun p => strContains (lowerStr h) p))
  cardLinks.foldl
    (fun acc href =>
      let cardUrl := urljoin base href
      if acc.any (fun cd => cd.cardUrl = cardUrl) then acc
      else
        match w cardUrl with
        | none => acc
        | some csoup =>
          match extractCardDetailsFromPage csoup base cardUrl si with
          | some card => acc ++ [card]
          | none => acc)
    acc

/-- One iteration's card collection: containers when present, otherwise
the anchor fallback. -/
def pokProcessPage (base : String) (w : String → Option PokPage)
    (si : SetInfo) (pg : PokPage) (acc : List CardP) : List CardP :=
  if pg.containers.isEmpty then pokProcessAnchors base w si pg.anchorHrefs acc
  else pokProcessContainers base w si pg.containers acc

/-- The `while has_more and page <= 20` pagination loop of lines 316–421.
The page for the current iteration is already fetched; the next page is
fetched with the `?page=` URL, falling back to `/page/`.  The second
component counts loop iterations (pages processed). -/
def pokPagesGo (base : String) (w : String → Option PokPage) (si : SetInfo)
    (clu : String) : PokPage → Nat → List CardP → Nat → List CardP × Nat
  | pg, page, acc, cnt =>
    let acc' := pokProcessPage base w si pg acc
    let cnt' := cnt + 1
    if !pg.hasNext then (acc', cnt')
    else if h : page + 1 > 20 then (acc', cnt')
    else
      match w (clu ++ "?page=" ++ Nat.repr (page + 1)) with
      | some pg2 => pokPagesGo base w si clu pg2 (page + 1) acc' cnt'
      | none =>
        match w (clu ++ "/page/" ++ Nat.repr (page + 1)) with
        | some pg2 => pokPagesGo base w si clu pg2 (page + 1) acc' cnt'
        | none => (acc', cnt')
  termination_by _ page => 20 - page
  decreasing_by
    all_goals simp_wf
    all_goals omega

/-- Result of `get_cards_from_set`: the cards, the list URL that parsed
(`card_list_url`), and the number of pagination-loop iterations. -/
structure PokCardsResult where
  cards : List CardP
  chosenUrl : Option String
  pagesProcessed : Nat
deriving Repr

def pokGetCardsFromSet (base : String) (w : String → Option PokPage)
    (si : SetInfo) : PokCardsResult :=
  match firstFetch w (pokCandidates si.url) with
  | none => { cards := [], chosenUrl := none, pagesProcessed := 0 }
  | some (clu, soup) =>
    match extractCardDetailsFromPage soup base clu si with
    | some card =>
      { cards := [card], chosenUrl := some clu, pagesProcessed := 0 }
    | none =>
      let r := pokPagesGo base w si clu soup 1 [] 0
      { cards := r.1, chosenUrl := some clu, pagesProcessed := r.2 }

/-! ### `get_soup` (base class, lines 67–75; Pokellector override,
lines 157–234)

A fetch oracle assigns one outcome to each attempt (0-based).  `Document`
content is irrelevant here, so a successful result records the index of
the attempt that succeeded. -/

/-- Outcome of one `session.get` + `raise_for_status`. -/
inductive FetchOutcome where
  | ok
  | timeout
  | connError
  | httpError (code : Nat)
  | otherError
deriving DecidableEq, Repr

/-- The retryable HTTP statuses of line 232. -/
def retryableStatus (c : Nat) : Bool :=
  c = 429 || c = 500 || c = 502 || c = 503 || c = 504 || c = 522 || c = 524

/-- `PokemonCardScraper._is_retryable_error` (lines 213–234): timeouts,
connection-level errors, and the listed HTTP statuses are retryable.
(`ok` never reaches this predicate.) -/
def isRetryableError : FetchOutcome → Bool
  | .timeout => true
  | .connError => true
  | .httpError c => retryableStatus c
  | _ => false

/-- Result of a `get_soup` call: the successful attempt index (if any),
the number of requests made, and the back-off sleeps performed. -/
structure SoupResult where
  result : Option Nat
  attempts : Nat
  sleeps : List Nat
deriving DecidableEq, Repr

/-- `BaseScraper.get_soup` (lines 67–75): a single request; any exception
is caught and `None` is returned. -/
def baseGetSoup (oracle : Nat → FetchOutcome) : SoupResult :=
  match oracle 0 with
  | .ok => { result := some 0, attempts := 1, sleeps := [] }
  | _ => { result := none, attempts := 1, sleeps := [] }

/-- The `for attempt in range(max_retries + 1)` loop of
`PokemonCardScraper.get_soup` (lines 169–211), with `initial_delay = 1`:
`remaining` counts loop iterations left.  On a timeout the loop always
continues (sleeping only when retries remain); on another request error it
continues only when retryable and retries remain, otherwise it breaks; on
an unexpected error it breaks.  The back-off before retry `attempt` is
`min(2 ** attempt, 60)` seconds. -/
def pokGetSoupGo (oracle : Nat → FetchOutcome) (maxRetries : Nat) :
    Nat → Nat → List Nat → SoupResult
  | 0, attempt, acc => { result := none, attempts := attempt, sleeps := acc }
  | rem + 1, attempt, acc =>
    match oracle attempt with
    | .ok => { result := some attempt, attempts := attempt + 1, sleeps := acc }
    | .timeout =>
      if attempt < maxRetries then
        pokGetSoupGo oracle maxRetries rem (attempt + 1)
          (acc ++ [min (2 ^ attempt) 60])
      else pokGetSoupGo oracle maxRetries rem (attempt + 1) acc
    | .connError =>
      if attempt < maxRetries then
        pokGetSoupGo oracle maxRetries rem (attempt + 1)
          (acc ++ [min (2 ^ attempt) 60])
      else { result := none, attempts := attempt + 1, sleeps := acc }
    | .httpError c =>
      if attempt < maxRetries && retryableStatus c then
        pokGetSoupGo oracle maxRetries rem (attempt + 1)
          (acc ++ [min (2 ^ attempt) 60])
      else { result := none, attempts := attempt + 1, sleeps := acc }
    | .otherError => { result := none, attempts := attempt + 1, sleeps := acc }

/-- `PokemonCardScraper.get_soup` with its default `max_retries = 3`
(4 attempts in total). -/
def pokGetSoup (oracle : Nat → FetchOutcome) : SoupResult :=
  pokGetSoupGo oracle 3 4 0 []

/-! ### Download managers

The filesystem is an association list from paths to file sizes, the
progress set a list of download identities, and the network an oracle
mapping the index of the request (a running counter) to its outcome. -/

/-- Outcome of one image GET: the body size streamed to disk, or a raised
`requests` exception (connection failure or `raise_for_status`). -/
inductive NetResult where
  | ok (size : Nat)
  | err
deriving DecidableEq, Repr

abbrev FS := List (String × Nat)

def fsGet (fs : FS) (p : String) : Option Nat :=
  (fs.find? (fun e => e.1 == p)).map (fun e => e.2)

def fsSet (fs : FS) (p : String) (n : Nat) : FS :=
  (p, n) :: fs.filter (fun e => !(e.1 == p))

def fsRemove (fs : FS) (p : String) : FS :=
  fs.filter (fun e => !(e.1 == p))

def fsExists (fs : FS) (p : String) : Bool := (fsGet fs p).isSome

/-- Mutable state of a download manager: the filesystem, the progress set
(`self.downloaded_files`), and the number of network requests made. -/
structure DLState where
  fs : FS
  downloaded : List String
  netCalls : Nat
deriving DecidableEq, Repr

/-- A card dict as passed to `download_image`; `none` models a missing
key (dict access raises `KeyError`, `dict.get` does not). -/
structure DCard where
  name : Option String
  number : Option String
  setCode : Option String
  imgUrl : Option String
  imageUrl : Option String
deriving DecidableEq, Repr

/-- Environment of `PokemonCardScraper.download_image`: configuration and
the effect oracles. -/
structure PokEnv where
  outputDir : String
  language : String
  net : Nat → NetResult
  makedirsOk : Bool

/-- The directory/filename scheme of lines 713–724. -/
def pokFilepath (outputDir language setCode number : String) : String :=
  outputDir ++ "/pokellector/" ++ language ++ "/" ++ setCode ++ "/"
    ++ setCode ++ "-" ++ number ++ ".png"

/-- The download identity of line 727. -/
def pokDownloadId (setCode number : String) : String :=
  setCode ++ "-" ++ number

/-- One iteration of the retry loop of lines 738–766 (the inner
`try` body): fetch, stream to the destination file, verify non-zero size;
an empty file is removed and reported as the `Downloaded file is empty`
exception.  Errors carry the state reached when they were raised. -/
def pokTryDownload (imgUrl? : Option String) (net : Nat → NetResult)
    (filepath dlid : String) (st : DLState) :
    Except (String × DLState) (Bool × DLState) :=
  match imgUrl? with
  | none => .error ("KeyError: img_url", st)
  | some _ =>
    let st1 : DLState := { st with netCalls := st.netCalls + 1 }
    match net st.netCalls with
    | .err => .error ("RequestException", st1)
    | .ok size =>
      let st2 : DLState := { st1 with fs := fsSet st1.fs filepath size }
      if size > 0 then
        .ok (true, { st2 with downloaded := st2.downloaded ++ [dlid] })
      else
        .error ("Downloaded file is empty",
          { st2 with fs := fsRemove st2.fs filepath })

/-- The `for attempt in range(max_retries)` loop (lines 737–768):
`fuel` is the number of attempts left (`max_retries = 3` initially); on
the last attempt's failure the destination file, if present, is removed
and `False` is returned.  The `return False` after the loop is the
`fuel = 0` case (unreachable from `fuel = 3`). -/
def pokRetryLoop (imgUrl? : Option String) (net : Nat → NetResult)
    (filepath dlid : String) : Nat → DLState → Bool × DLState
  | 0, st => (false, st)
  | fuel + 1, st =>
    match pokTryDownload imgUrl? net filepath dlid st with
    | .ok r => r
    | .error (_, st') =>
      if fuel = 0 then (false, { st' with fs := fsRemove st'.fs filepath })
      else pokRetryLoop imgUrl? net filepath dlid fuel st'

/-- The body of `PokemonCardScraper.download_image` (lines 710–768)
without the outer `except` handler.  A `.error` is an exception escaping
the body. -/
def pokDownloadBody (env : PokEnv) (card : DCard) (st : DLState) :
    Except (String × DLState) (Bool × DLState) :=
  match card.setCode with
  | none => .error ("KeyError: set_code", st)
  | some sc =>
    if !env.makedirsOk then .error ("OSError: makedirs", st)
    else
      match card.number with
      | none => .error ("KeyError: number", st)
      | some num =>
        let filepath := pokFilepath env.outputDir env.language sc num
        let dlid := pokDownloadId sc num
        if fsExists st.fs filepath || st.downloaded.contains dlid then
          .ok (true, st)
        else .ok (pokRetryLoop card.imgUrl env.net filepath dlid 3 st)

/-- `PokemonCardScraper.download_image` with the outer
`except Exception: return False` handler (lines 770–772). -/
def pokDownloadImageE (env : PokEnv) (card : DCard) (st : DLState) :
    Except (String × DLState) (Bool × DLState) :=
  match pokDownloadBody env card st with
  | .ok r => .ok r
  | .error (_, st') => .ok (false, st')

def pokDownloadImage (env : PokEnv) (card : DCard) (st : DLState) :
    Bool × DLState :=
  match pokDownloadImageE env card st with
  | .ok r => r
  | .error (_, st') => (false, st')

/-- Environment of `TCGCollectorScraper.download_image`. -/
structure TcgEnv where
  outputDir : String
  language : String
  net : Nat → NetResult
  makedirsOk : Bool

/-- `safe_name` of lines 1154–1155: drop every character that is not a
word character, whitespace or hyphen; strip; collapse each whitespace run
into one hyphen. -/
def collapseSpacesGo : Bool → List Char → List Char
  | _, [] => []
  | inRun, c :: rest =>
    if isSpaceChar c then
      if inRun then collapseSpacesGo true rest
      else '-' :: collapseSpacesGo true rest
    else c :: collapseSpacesGo false rest

def collapseSpaces (l : List Char) : List Char := collapseSpacesGo false l

def tcgSafeName (s : String) : String :=
  ⟨collapseSpaces
    (pyStrip ⟨s.data.filter (fun c => isWordChar c || isSpaceChar c || c = '-')⟩).data⟩

/-- The number formatting of lines 1157–1162: `str(int(·)).zfill(3)` when
`int` succeeds (an all-digit string after stripping whitespace), the raw
value otherwise (the `except` branch reads `card.get('number', '000')`,
and the key is present on this path). -/
def tcgFormatNumber (num : String) : String :=
  if pyIsDigit (pyStrip num) then zfill (Nat.repr (digitsToNat (pyStrip num))) 3
  else num

/-- The directory/filename scheme of lines 1144–1166. -/
def tcgFilepath (outputDir language setCode number safeName : String) : String :=
  outputDir ++ "/tcgcollector/" ++ language ++ "/" ++ setCode ++ "/"
    ++ setCode ++ "-" ++ number ++ "-" ++ safeName ++ ".jpg"

/-- The body of `TCGCollectorScraper.download_image` (lines 1137–1186)
without the outer `except` handler.  Note: no progress-set lookup, no
size verification of the streamed body, no retry. -/
def tcgDownloadBody (env : TcgEnv) (card : DCard) (st : DLState) :
    Except (String × DLState) (Bool × DLState) :=
  if !pyTruthy card.imageUrl then .ok (false, st)
  else
    match card.setCode with
    | none => .error ("KeyError: set_code", st)
    | some sc =>
      if !env.makedirsOk then .error ("OSError: makedirs", st)
      else
        match card.name with
        | none => .error ("KeyError: name", st)
        | some nm =>
          match card.number with
          | none => .error ("KeyError: number", st)
          | some num0 =>
            let filepath := tcgFilepath env.outputDir env.language sc
              (tcgFormatNumber num0) (tcgSafeName nm)
            let download : Except (String × DLState) (Bool × DLState) :=
              let st1 : DLState := { st with netCalls := st.netCalls + 1 }
              match env.net st.netCalls with
              | .err => .error ("RequestException", st1)
              | .ok size =>
                .ok (true, { st1 with fs := fsSet st1.fs filepath size })
            match fsGet st.fs filepath with
            | some size => if size > 1024 then .ok (true, st) else download
            | none => download

/-- `TCGCollectorScraper.download_image` with the outer
`except Exception: return False` handler (lines 1188–1190). -/
def tcgDownloadImageE (env : TcgEnv) (card : DCard) (st : DLState) :
    Except (String × DLState) (Bool × DLState) :=
  match tcgDownloadBody env card st with
  | .ok r => .ok r
  | .error (_, st') => .ok (false, st')

def tcgDownloadImage (env : TcgEnv) (card : DCard) (st : DLState) :
    Bool × DLState :=
  match tcgDownloadImageE env card st with
  | .ok r => r
  | .error (_, st') => (false, st')

/-! ### Concrete instances used by witnesses and counterexamples -/

/-- `base_url` for `PokemonCardScraper` with `language = 'en'` (line 83). -/
def pokBaseEn : String := "https://www.pokellector.com"

/-- `base_url` for `PokemonCardScraper` with `language = 'jp'` (line 83). -/
def pokBaseJp : String := "https://jp.pokellector.com"

/-- `base_url` for `TCGCollectorScraper` (line 940). -/
def tcgBase : String := "https://www.tcgcollector.com"

/-- A page whose only content is (optionally) one image under the first
image selector: every other query comes back empty. -/
def mkPokPage (imgSrc : Option String) : PokPage :=
  { numberSelectorElems := fun _ => []
    nameSelectorText := fun _ => none
    imgSelectorHit := fun sel =>
      if sel = "div.card-image img" then
        imgSrc.map (fun s =>
          { src := some s, dataSrc := none, dataLazySrc := none, alt := none })
      else none
    containers := []
    anchorHrefs := []
    hasNext := false }

def c1wPg : PokPage := mkPokPage (some "/images/pikachu.jpg")

def c1wUrl : String := "https://www.pokellector.com/Test-Set/Pikachu-Card-7"

def c1wSi : SetInfo :=
  { name := "Test Set", code := "Test-Set",
    url := "https://www.pokellector.com/Test-Set" }

def c1xPg : PokPage := mkPokPage (some "/images/thing.jpg")

def c1xUrl : String := "https://www.pokellector.com/Test-Set/Thing-Card-1234"

def c1xSi : SetInfo :=
  { name := "Test Set", code := "Test-Set",
    url := "https://www.pokellector.com/Test-Set" }

def c2wEnvP : PokEnv :=
  { outputDir := "out", language := "en", net := fun _ => .err,
    makedirsOk := true }

def c2wCardP : DCard :=
  { name := some "Pikachu", number := some "007", setCode := some "SV1",
    imgUrl := some "https://cdn.example/p.png", imageUrl := none }

def c2wStP : DLState :=
  { fs := [], downloaded := ["SV1-007"], netCalls := 0 }

def c2wEnvT : TcgEnv :=
  { outputDir := "out", language := "en", net := fun _ => .err,
    makedirsOk := true }

def c2wCardT : DCard :=
  { name := some "Pikachu", number := some "7", setCode := some "jt",
    imgUrl := none, imageUrl := some "https://cdn.example/p.jpg" }

def c2wStT : DLState :=
  { fs := [("out/tcgcollector/en/jt/jt-007-Pikachu.jpg", 40000)],
    downloaded := [], netCalls := 0 }

def c2xEnv : TcgEnv :=
  { outputDir := "out", language := "en", net := fun _ => .ok 5000,
    makedirsOk := true }

def c2xCard : DCard :=
  { name := some "Pikachu", number := some "7", setCode := some "jt",
    imgUrl := none, imageUrl := some "https://cdn.example/p.jpg" }

def c2xSt : DLState :=
  { fs := [], downloaded := ["jt-007"], netCalls := 0 }

def c3wEnv : PokEnv :=
  { outputDir := "out", language := "en", net := fun _ => .ok 0,
    makedirsOk := true }

def c3wCard : DCard :=
  { name := some "Pikachu", number := some "007", setCode := some "SV1",
    imgUrl := some "https://cdn.example/p.png", imageUrl := none }

def c3xEnv : TcgEnv :=
  { outputDir := "out", language := "en", net := fun _ => .ok 0,
    makedirsOk := true }

def c3xCard : DCard :=
  { name := some "Pikachu", number := some "7", setCode := some "jt",
    imgUrl := none, imageUrl := some "https://cdn.example/p.jpg" }

def c3xPath : String := "out/tcgcollector/en/jt/jt-007-Pikachu.jpg"

def emptyDLState : DLState := { fs := [], downloaded := [], netCalls := 0 }

def c6Oracle : Nat → FetchOutcome :=
  fun i => if i = 0 then .httpError 503 else .ok

def c8r1 : CardP :=
  { name := "Pikachu", number := "007",
    imgUrl := "https://den.pokellector.com/images/p1.jpg",
    cardUrl := "https://www.pokellector.com/Destined-Rivals/Pikachu-Card-7",
    setCode := "Destined-Rivals", setName := "Destined Rivals" }

def c8r2 : CardP :=
  { c8r1 with name := "Pikachu EX" }

def c9Si : SetInfo :=
  { name := "Test", code := "Test", url := "https://www.pokellector.com/Test" }

def c9xFetch : String → Option PokPage :=
  fun u =>
    if u = "https://www.pokellector.com/Test/cards"
        || u = "https://www.pokellector.com/Test" then
      some (mkPokPage none)
    else none

def c9wFetch : String → Option PokPage :=
  fun u =>
    if u = "https://www.pokellector.com/Test" then some (mkPokPage none)
    else none

def c5wPg : PokPage := mkPokPage none

def c5wUrl : String := "https://www.pokellector.com/Some-Set/mystery-card"

def c5wSi : SetInfo :=
  { name := "Some Set", code := "Some-Set",
    url := "https://www.pokellector.com/Some-Set" }

def c5wCont : Container :=
  { linkHref := none, nameElem := some "Mystery", numberElem := none,
    img := none }

def c5xSi : TcgSetInfo :=
  { name := "Journey Together", code := "journey-together",
    url := "https://www.tcgcollector.com/sets/11645/journey-together" }

def c5xCont : TcgContainer :=
  { img := some { src := some "/card-images/pika.jpg", dataSrc := none,
                  dataLazySrc := none, alt := some "Pikachu" }
    nameElem := none, numberElem := none, parentHref := none }

def c7xCont : Container :=
  { linkHref := some "/Test-Set/Pika-Card-7"
    nameElem := some "Pikachu"
    numberElem := some "7"
    img := some { src := some "/images/card.png?v=2", dataSrc := none,
                  dataLazySrc := none, alt := none } }

def c7xUrl : String := "https://www.pokellector.com/Test-Set/Pika-Card-7"

def c7xSi : SetInfo :=
  { name := "Test Set", code := "Test-Set",
    url := "https://www.pokellector.com/Test-Set" }

def c7wPg : PokPage := mkPokPage (some "/img/card9.png")

def c7wUrl : String := "https://www.pokellector.com/S/Card-9"

def c7wSi : SetInfo :=
  { name := "S", code := "S", url := "https://www.pokellector.com/S" }

def c7wContT : TcgContainer :=
  { img := some { src := some "/card-images/mew.jpg?fit=1", dataSrc := none,
                  dataLazySrc := none, alt := some "Mew" }
    nameElem := none, numberElem := some "#12", parentHref := none }

def c10Card : DCard :=
  { name := none, number := none, setCode := none, imgUrl := none,
    imageUrl := some "https://cdn.example/x.jpg" }

def c7wSiT : TcgSetInfo :=
  { name := "Mew Set", code := "mew-set",
    url := "https://www.tcgcollector.com/sets/1/mew-set" }

/-- The spec's invariant predicate "absolute, scheme-qualified URL":
the URL carries an explicit `http://` or `https://` scheme. -/
def isAbsoluteUrl (u : String) : Bool :=
  strStartsWith u "http://" || strStartsWith u "https://"

/-! ## Supporting lemmas -/

theorem tcgGetCardsGo_pages_le (fetch : String → Option TcgPage)
    (base lang : String) (si : TcgSetInfo) :
    ∀ (n page : Nat) (acc : List CardT) (fetched : Nat), 51 - page ≤ n →
      (tcgGetCardsGo fetch base lang si page acc fetched).2
        ≤ fetched + (51 - page) := by
  intro n
  induction n with
  | zero =>
    intro page acc fetched h
    rw [tcgGetCardsGo]
    have hp : page > 50 := by omega
    simp [hp]
  | succ n ih =>
    intro page acc fetched h
    rw [tcgGetCardsGo]
    split
    · simp
    · next hp =>
      split
      · simp; omega
      · split
        · simp; omega
        · split
          · simp; omega
          · apply le_trans (ih (page + 1) _ (fetched + 1) (by omega))
            omega

theorem pokPagesGo_pages_le (base : String) (w : String → Option PokPage)
    (si : SetInfo) (clu : String) :
    ∀ (n : Nat) (pg : PokPage) (page : Nat) (acc : List CardP) (cnt : Nat),
      page ≤ 20 → 20 - page ≤ n →
      (pokPagesGo base w si clu pg page acc cnt).2 ≤ cnt + (21 - page) := by
  intro n
  induction n with
  | zero =>
    intro pg page acc cnt hle h
    rw [pokPagesGo]
    split
    · simp; omega
    · split
      · simp; omega
      · next h1 h2 => exfalso; omega
  | succ n ih =>
    intro pg page acc cnt hle h
    rw [pokPagesGo]
    split
    · simp; omega
    · split
      · simp; omega
      · next h1 h2 =>
        split
        · next pg2 heq =>
          apply le_trans (ih pg2 (page + 1) _ (cnt + 1) (by omega) (by omega))
          omega
        · split
          · next pg2 heq =>
            apply le_trans (ih pg2 (page + 1) _ (cnt + 1) (by omega) (by omega))
            omega
          · simp; omega

theorem fsGet_fsRemove (fs : FS) (p : String) :
    fsGet (fsRemove fs p) p = none := by
  induction fs with
  | nil => rfl
  | cons e rest ih =>
    by_cases h : e.1 == p
    · simp [fsRemove, fsGet, List.filter_cons, h, ih]
    · simp [fsRemove, fsGet, List.filter_cons, List.find?, h, ih]

theorem pokTryDownload_empty (iu : String) (net : Nat → NetResult)
    (fp dlid : String) (st : DLState) (h : net st.netCalls = .ok 0) :
    pokTryDownload (some iu) net fp dlid st =
      .error ("Downloaded file is empty",
        ⟨fsRemove (fsSet st.fs fp 0) fp, st.downloaded, st.netCalls + 1⟩) := by
  simp [pokTryDownload, h]

theorem pokRetryLoop_step (iu : String) (net : Nat → NetResult)
    (fp dlid : String) (fuel : Nat) (st : DLState) (hfuel : fuel ≠ 0)
    (h : net st.netCalls = .ok 0) :
    pokRetryLoop (some iu) net fp dlid (fuel + 1) st =
      pokRetryLoop (some iu) net fp dlid fuel
        ⟨fsRemove (fsSet st.fs fp 0) fp, st.downloaded, st.netCalls + 1⟩ := by
  rw [pokRetryLoop, pokTryDownload_empty iu net fp dlid st h]
  simp [hfuel]

theorem pokRetryLoop_last (iu : String) (net : Nat → NetResult)
    (fp dlid : String) (st : DLState) (h : net st.netCalls = .ok 0) :
    pokRetryLoop (some iu) net fp dlid 1 st =
      (false, ⟨fsRemove (fsRemove (fsSet st.fs fp 0) fp) fp,
        st.downloaded, st.netCalls + 1⟩) := by
  rw [pokRetryLoop, pokTryDownload_empty iu net fp dlid st h]
  simp

/-! ## Claim theorems -/

/-- Claim C4 (confirmed): for every set and every sequence of fetched pages —
including one in which a "next page" control is present on every page —
the pagination loop of `get_cards_from_set` terminates after at most the
configured page cap: 20 processed pages for the Pokellector adapter, 50
fetched pages for the TCG Collector adapter.  The fetch oracles `w` and
`fetch` are universally quantified, so in particular pages may report a
next-page control forever. -/
theorem c4_pagination_page_caps (base : String) (w : String → Option PokPage)
    (si : SetInfo) (fetch : String → Option TcgPage) (tbase tlang : String)
    (tsi : TcgSetInfo) :
    (pokGetCardsFromSet base w si).pagesProcessed ≤ 20 ∧
    (tcgGetCardsFromSet fetch tbase tlang tsi).2 ≤ 50 := by
  constructor
  · unfold pokGetCardsFromSet
    cases hf : firstFetch w (pokCandidates si.url) with
    | none => simp
    | some p =>
      obtain ⟨clu, soup⟩ := p
      simp only [hf]
      cases he : extractCardDetailsFromPage soup base clu si with
      | some card => simp [he]
      | none =>
        simp only [he]
        have hb := pokPagesGo_pages_le base w si clu 19 soup 1 [] 0
          (by omega) (by omega)
        simpa using hb
  · unfold tcgGetCardsFromSet
    have hb := tcgGetCardsGo_pages_le fetch tbase tlang tsi 50 1 [] 0 (by omega)
    simpa using hb

/-- Claim C10 (confirmed): `download_image` of either adapter returns a
boolean for every input card dict — including dicts with missing keys —
every state and every effect oracle: the body's exceptions (`KeyError`,
directory-creation failure, network exceptions) never escape the outer
handler, which reports `False` instead. -/
theorem c10_download_image_total (envP : PokEnv) (envT : TcgEnv)
    (card : DCard) (st : DLState) :
    (∃ r, pokDownloadImageE envP card st = Except.ok r) ∧
    (∃ r, tcgDownloadImageE envT card st = Except.ok r) := by
  constructor
  · match h : pokDownloadBody envP card st with
    | .ok r => exact ⟨r, by simp [pokDownloadImageE, h]⟩
    | .error (msg, st') => exact ⟨(false, st'), by simp [pokDownloadImageE, h]⟩
  · match h : tcgDownloadBody envT card st with
    | .ok r => exact ⟨r, by simp [tcgDownloadImageE, h]⟩
    | .error (msg, st') => exact ⟨(false, st'), by simp [tcgDownloadImageE, h]⟩

/-- Claim C2 (amended): the skip conditions that hold on the code.  For the
Pokellector adapter, a record whose destination file exists (of any size)
or whose download identity is in the Progress Set is skipped: the call
returns success with the state — in particular the network-call counter —
unchanged.  For the TCG Collector adapter only the file-existence check
(with the `> 1024` bytes threshold) short-circuits; the Progress Set is
not consulted (see the counterexample). -/
theorem c2_skip_no_network :
    (∀ (env : PokEnv) (card : DCard) (st : DLState) (sc num : String),
      card.setCode = some sc → card.number = some num →
      env.makedirsOk = true →
      (fsExists st.fs (pokFilepath env.outputDir env.language sc num)
        || st.downloaded.contains (pokDownloadId sc num)) = true →
      pokDownloadImage env card st = (true, st))
    ∧
    (∀ (env : TcgEnv) (card : DCard) (st : DLState) (iu sc nm num : String)
      (sz : Nat),
      card.imageUrl = some iu → iu.isEmpty = false →
      card.setCode = some sc → env.makedirsOk = true →
      card.name = some nm → card.number = some num →
      fsGet st.fs (tcgFilepath env.outputDir env.language sc
        (tcgFormatNumber num) (tcgSafeName nm)) = some sz →
      sz > 1024 →
      tcgDownloadImage env card st = (true, st)) := by
  constructor
  · intro env card st sc num hsc hnum hmk hskip
    rw [Bool.or_eq_true] at hskip
    rcases hskip with h | h
    · simp [pokDownloadImage, pokDownloadImageE, pokDownloadBody, hsc, hnum,
        hmk, h]
    · have hm : pokDownloadId sc num ∈ st.downloaded :=
        List.mem_of_elem_eq_true h
      simp [pokDownloadImage, pokDownloadImageE, pokDownloadBody, hsc, hnum,
        hmk, hm]
  · intro env card st iu sc nm num sz hiu hne hsc hmk hnm hnum hfs hsz
    simp [tcgDownloadImage, tcgDownloadImageE, tcgDownloadBody, hiu, hne,
      hsc, hmk, hnm, hnum, hfs, hsz, pyTruthy]

/-- Witness for `c2_skip_no_network`: a Pokellector card whose identity
`SV1-007` is in the Progress Set, and a TCG Collector card whose
destination file exists with 40000 bytes, are both skipped as success
(state, and hence the number of network calls, unchanged). -/
theorem c2_skip_no_network_witness :
    pokDownloadImage c2wEnvP c2wCardP c2wStP = (true, c2wStP)
    ∧ tcgDownloadImage c2wEnvT c2wCardT c2wStT = (true, c2wStT) :=
  ⟨c2_skip_no_network.1 c2wEnvP c2wCardP c2wStP "SV1" "007" rfl rfl rfl
    (by decide),
   c2_skip_no_network.2 c2wEnvT c2wCardT c2wStT "https://cdn.example/p.jpg"
    "jt" "Pikachu" "7" 40000 rfl (by decide) rfl rfl rfl rfl (by decide)
    (by decide)⟩

/-- Claim C2 counterexample: the claim as stated is false for the TCG
Collector adapter.  The download identity `jt-007` of the card (set code
`jt`, number `007`) is in the Progress Set, the destination file does not
exist, and `TCGCollectorScraper.download_image` nevertheless performs one
network call (`netCalls` goes from 0 to 1): its skip logic never consults
the Progress Set. -/
theorem c2_counterexample :
    c2xSt.downloaded = ["jt-007"] ∧ c2xSt.netCalls = 0
    ∧ (tcgDownloadImage c2xEnv c2xCard c2xSt).1 = true
    ∧ (tcgDownloadImage c2xEnv c2xCard c2xSt).2.netCalls = 1 := by
  refine ⟨rfl, rfl, ?_, ?_⟩ <;> decide

/-- Claim C3 (amended): the empty-body guarantee holds for the Pokellector
adapter only.  When every attempt of `PokemonCardScraper.download_image`
streams an empty body, the download is reported failed, exactly 3 attempts
are made, no file remains at the destination path, and the identity is not
added to the Progress Set.  (The TCG Collector adapter leaves the
zero-byte file in place and reports success — see the counterexample.) -/
theorem c3_pok_empty_body_no_zero_byte_file (env : PokEnv) (card : DCard)
    (st : DLState) (sc num iu : String)
    (hsc : card.setCode = some sc) (hnum : card.number = some num)
    (hiu : card.imgUrl = some iu) (hmk : env.makedirsOk = true)
    (hnet : env.net = fun _ => NetResult.ok 0)
    (hskip : (fsExists st.fs (pokFilepath env.outputDir env.language sc num)
      || st.downloaded.contains (pokDownloadId sc num)) = false) :
    ∃ st', pokDownloadImage env card st = (false, st')
      ∧ fsGet st'.fs (pokFilepath env.outputDir env.language sc num) = none
      ∧ st'.netCalls = st.netCalls + 3
      ∧ st'.downloaded = st.downloaded := by
  have hex : fsExists st.fs (pokFilepath env.outputDir env.language sc num)
      = false := by
    rw [Bool.or_eq_false_iff] at hskip
    exact hskip.1
  have hct : pokDownloadId sc num ∉ st.downloaded := by
    rw [Bool.or_eq_false_iff] at hskip
    intro hm
    have h1 := List.elem_eq_true_of_mem hm
    have h2 : List.elem (pokDownloadId sc num) st.downloaded = false :=
      hskip.2
    rw [h2] at h1
    exact Bool.false_ne_true h1
  have hbody : pokDownloadBody env card st =
      .ok (pokRetryLoop card.imgUrl env.net
        (pokFilepath env.outputDir env.language sc num)
        (pokDownloadId sc num) 3 st) := by
    simp [pokDownloadBody, hsc, hnum, hmk, hex, hct]
  set fp := pokFilepath env.outputDir env.language sc num with hfp
  set st1 : DLState :=
    ⟨fsRemove (fsSet st.fs fp 0) fp, st.downloaded, st.netCalls + 1⟩
    with hst1
  set st2 : DLState :=
    ⟨fsRemove (fsSet st1.fs fp 0) fp, st1.downloaded, st1.netCalls + 1⟩
    with hst2
  have h3 : pokRetryLoop (some iu) env.net fp (pokDownloadId sc num) 3 st
      = pokRetryLoop (some iu) env.net fp (pokDownloadId sc num) 2 st1 :=
    pokRetryLoop_step iu env.net fp (pokDownloadId sc num) 2 st
      (by omega) (by rw [hnet])
  have h4 : pokRetryLoop (some iu) env.net fp (pokDownloadId sc num) 2 st1
      = pokRetryLoop (some iu) env.net fp (pokDownloadId sc num) 1 st2 :=
    pokRetryLoop_step iu env.net fp (pokDownloadId sc num) 1 st1
      (by omega) (by rw [hnet])
  have h5 : pokRetryLoop (some iu) env.net fp (pokDownloadId sc num) 1 st2
      = (false, ⟨fsRemove (fsRemove (fsSet st2.fs fp 0) fp) fp,
          st2.downloaded, st2.netCalls + 1⟩) :=
    pokRetryLoop_last iu env.net fp (pokDownloadId sc num) st2
      (by rw [hnet])
  refine ⟨⟨fsRemove (fsRemove (fsSet st2.fs fp 0) fp) fp,
      st2.downloaded, st2.netCalls + 1⟩, ?_, ?_, ?_, ?_⟩
  · show pokDownloadImage env card st = _
    simp only [pokDownloadImage, pokDownloadImageE, hbody, hiu, h3, h4, h5]
  · exact fsGet_fsRemove _ _
  · simp [hst2, hst1]
  · simp [hst2, hst1]

/-- Witness for `c3_pok_empty_body_no_zero_byte_file` at a concrete
environment whose network oracle always returns an empty body. -/
theorem c3_pok_empty_body_witness :
    ∃ st', pokDownloadImage c3wEnv c3wCard emptyDLState = (false, st')
      ∧ fsGet st'.fs (pokFilepath "out" "en" "SV1" "007") = none
      ∧ st'.netCalls = emptyDLState.netCalls + 3
      ∧ st'.downloaded = emptyDLState.downloaded :=
  c3_pok_empty_body_no_zero_byte_file c3wEnv c3wCard emptyDLState "SV1"
    "007" "https://cdn.example/p.png" rfl rfl rfl rfl rfl (by decide)

/-- Claim C3 counterexample: the claim as stated is false for the TCG
Collector adapter.  With an HTTP response whose body is empty,
`TCGCollectorScraper.download_image` returns success after one network
call and a zero-byte file remains at the destination path: the size is
never verified, nothing is deleted and nothing is retried. -/
theorem c3_counterexample :
    (tcgDownloadImage c3xEnv c3xCard emptyDLState).1 = true
    ∧ fsGet (tcgDownloadImage c3xEnv c3xCard emptyDLState).2.fs c3xPath
        = some 0
    ∧ (tcgDownloadImage c3xEnv c3xCard emptyDLState).2.netCalls = 1 := by
  refine ⟨?_, ?_, ?_⟩ <;> decide

theorem retryable_ne_ok (o : FetchOutcome)
    (h : isRetryableError o = true) : o ≠ .ok := by
  cases o <;> simp_all [isRetryableError]

theorem pokGetSoupGo_ok (oracle : Nat → FetchOutcome) (mr rem attempt : Nat)
    (acc : List Nat) (hok : oracle attempt = .ok) :
    pokGetSoupGo oracle mr (rem + 1) attempt acc
      = { result := some attempt, attempts := attempt + 1, sleeps := acc } := by
  simp [pokGetSoupGo, hok]

theorem pokGetSoupGo_retry (oracle : Nat → FetchOutcome)
    (mr rem attempt : Nat) (acc : List Nat)
    (hret : isRetryableError (oracle attempt) = true) (hlt : attempt < mr) :
    pokGetSoupGo oracle mr (rem + 1) attempt acc
      = pokGetSoupGo oracle mr rem (attempt + 1)
          (acc ++ [min (2 ^ attempt) 60]) := by
  cases h : oracle attempt with
  | ok => simp [isRetryableError, h] at hret
  | timeout => simp [pokGetSoupGo, h, hlt]
  | connError => simp [pokGetSoupGo, h, hlt]
  | httpError c =>
    simp only [isRetryableError, h] at hret
    simp [pokGetSoupGo, h, hlt, hret]
  | otherError => simp [isRetryableError, h] at hret

theorem pokGetSoupGo_stop (oracle : Nat → FetchOutcome)
    (mr rem attempt : Nat) (acc : List Nat)
    (hok : oracle attempt ≠ .ok)
    (hret : isRetryableError (oracle attempt) = false) :
    pokGetSoupGo oracle mr (rem + 1) attempt acc
      = { result := none, attempts := attempt + 1, sleeps := acc } := by
  cases h : oracle attempt with
  | ok => exact absurd h hok
  | timeout => simp [isRetryableError, h] at hret
  | connError => simp [isRetryableError, h] at hret
  | httpError c =>
    simp only [isRetryableError, h] at hret
    simp [pokGetSoupGo, h, hret]
  | otherError => simp [pokGetSoupGo, h]

theorem pokGetSoupGo_last (oracle : Nat → FetchOutcome)
    (mr attempt : Nat) (acc : List Nat)
    (hok : oracle attempt ≠ .ok) (hge : ¬ attempt < mr) :
    pokGetSoupGo oracle mr 1 attempt acc
      = { result := none, attempts := attempt + 1, sleeps := acc } := by
  cases h : oracle attempt with
  | ok => exact absurd h hok
  | timeout => simp [pokGetSoupGo, h, hge]
  | connError => simp [pokGetSoupGo, h, hge]
  | httpError c => simp [pokGetSoupGo, h, hge]
  | otherError => simp [pokGetSoupGo, h]

theorem pokGetSoupGo_attempts_le (oracle : Nat → FetchOutcome) (mr : Nat) :
    ∀ (rem attempt : Nat) (acc : List Nat),
      (pokGetSoupGo oracle mr rem attempt acc).attempts ≤ attempt + rem := by
  intro rem
  induction rem with
  | zero => intro attempt acc; simp [pokGetSoupGo]
  | succ n ih =>
    intro attempt acc
    cases h : oracle attempt with
    | ok => simp [pokGetSoupGo, h]
    | timeout =>
      by_cases hlt : attempt < mr
      · rw [pokGetSoupGo_retry oracle mr n attempt acc (by simp [isRetryableError, h]) hlt]
        exact le_trans (ih (attempt + 1) _) (by omega)
      · simp only [pokGetSoupGo, h, hlt, if_false]
        exact le_trans (ih (attempt + 1) _) (by omega)
    | connError =>
      by_cases hlt : attempt < mr
      · rw [pokGetSoupGo_retry oracle mr n attempt acc (by simp [isRetryableError, h]) hlt]
        exact le_trans (ih (attempt + 1) _) (by omega)
      · simp [pokGetSoupGo, h, hlt]
    | httpError c =>
      by_cases hcond : (decide (attempt < mr) && retryableStatus c) = true
      · have h1 : attempt < mr := by
          rcases Bool.and_eq_true_iff.mp hcond with ⟨h1, _⟩
          exact of_decide_eq_true h1
        have h2 : retryableStatus c = true :=
          (Bool.and_eq_true_iff.mp hcond).2
        rw [pokGetSoupGo_retry oracle mr n attempt acc
          (by simp [isRetryableError, h, h2]) h1]
        exact le_trans (ih (attempt + 1) _) (by omega)
      · simp only [pokGetSoupGo, h]
        rw [if_neg (by simpa using hcond)]
        simp
    | otherError => simp [pokGetSoupGo, h]

/-- Unrolling of the Pokellector `get_soup` loop past `k` initial
retryable failures (`k ≤ 3`): the remaining computation starts at attempt
`k` with the back-off sleeps `min(2^i, 60)` for `i < k` performed. -/
theorem pokGetSoup_peel (oracle : Nat → FetchOutcome) (k : Nat) (hk : k ≤ 3)
    (hpre : ∀ i, i < k → isRetryableError (oracle i) = true) :
    pokGetSoup oracle = pokGetSoupGo oracle 3 (4 - k) k
      ((List.range k).map (fun i => min (2 ^ i) 60)) := by
  interval_cases k
  · rfl
  · have e1 : pokGetSoup oracle = pokGetSoupGo oracle 3 (3 + 1) 0 [] := rfl
    rw [e1, pokGetSoupGo_retry oracle 3 3 0 [] (hpre 0 (by omega)) (by omega)]
    rfl
  · have e1 : pokGetSoup oracle = pokGetSoupGo oracle 3 (3 + 1) 0 [] := rfl
    rw [e1, pokGetSoupGo_retry oracle 3 3 0 [] (hpre 0 (by omega)) (by omega)]
    have e2 : pokGetSoupGo oracle 3 3 1 ([] ++ [min (2 ^ 0) 60])
        = pokGetSoupGo oracle 3 (2 + 1) 1 ([] ++ [min (2 ^ 0) 60]) := rfl
    rw [e2, pokGetSoupGo_retry oracle 3 2 1 _ (hpre 1 (by omega)) (by omega)]
    rfl
  · have e1 : pokGetSoup oracle = pokGetSoupGo oracle 3 (3 + 1) 0 [] := rfl
    rw [e1, pokGetSoupGo_retry oracle 3 3 0 [] (hpre 0 (by omega)) (by omega)]
    have e2 : pokGetSoupGo oracle 3 3 1 ([] ++ [min (2 ^ 0) 60])
        = pokGetSoupGo oracle 3 (2 + 1) 1 ([] ++ [min (2 ^ 0) 60]) := rfl
    rw [e2, pokGetSoupGo_retry oracle 3 2 1 _ (hpre 1 (by omega)) (by omega)]
    have e3 : pokGetSoupGo oracle 3 2 2
          ([] ++ [min (2 ^ 0) 60] ++ [min (2 ^ 1) 60])
        = pokGetSoupGo oracle 3 (1 + 1) 2
          ([] ++ [min (2 ^ 0) 60] ++ [min (2 ^ 1) 60]) := rfl
    rw [e3, pokGetSoupGo_retry oracle 3 1 2 _ (hpre 2 (by omega)) (by omega)]
    rfl

/-- Claim C6 (amended): the stated retry policy — retry on timeouts,
connection errors and the HTTP statuses {429, 500, 502, 503, 504, 522,
524}, sleeping `min(2^attempt, 60)` seconds before each retry, at most 3
retries (4 attempts), non-retryable HTTP errors failing immediately, and
`None` returned on failure — holds for `PokemonCardScraper.get_soup`
only.  `BaseScraper.get_soup`, which `TCGCollectorScraper` inherits and
uses for every page fetch, performs exactly one attempt and returns
`None` on any error without retrying (see the counterexample). -/
theorem c6_get_soup_retry_policy (oracle : Nat → FetchOutcome) :
    (pokGetSoup oracle).attempts ≤ 4
    ∧ (∀ k, k ≤ 3 → (∀ i, i < k → isRetryableError (oracle i) = true) →
        oracle k = .ok →
        pokGetSoup oracle
          = ⟨some k, k + 1, (List.range k).map (fun i => min (2 ^ i) 60)⟩)
    ∧ (∀ k, k ≤ 3 → (∀ i, i < k → isRetryableError (oracle i) = true) →
        oracle k ≠ .ok → isRetryableError (oracle k) = false →
        pokGetSoup oracle
          = ⟨none, k + 1, (List.range k).map (fun i => min (2 ^ i) 60)⟩)
    ∧ ((∀ i, i ≤ 3 → isRetryableError (oracle i) = true) →
        pokGetSoup oracle = ⟨none, 4, [1, 2, 4]⟩)
    ∧ (baseGetSoup oracle).attempts = 1
    ∧ (oracle 0 ≠ .ok →
        baseGetSoup oracle
          = { result := none, attempts := 1, sleeps := [] }) := by
  refine ⟨?_, ?_, ?_, ?_, ?_, ?_⟩
  · have h := pokGetSoupGo_attempts_le oracle 3 4 0 []
    simpa [pokGetSoup] using h
  · intro k hk hpre hok
    rw [pokGetSoup_peel oracle k hk hpre]
    interval_cases k
    · rw [show (4 - 0 : Nat) = 3 + 1 from rfl, pokGetSoupGo_ok oracle 3 3 0 _ hok]
    · rw [show (4 - 1 : Nat) = 2 + 1 from rfl, pokGetSoupGo_ok oracle 3 2 1 _ hok]
    · rw [show (4 - 2 : Nat) = 1 + 1 from rfl, pokGetSoupGo_ok oracle 3 1 2 _ hok]
    · rw [show (4 - 3 : Nat) = 0 + 1 from rfl, pokGetSoupGo_ok oracle 3 0 3 _ hok]
  · intro k hk hpre hok hret
    rw [pokGetSoup_peel oracle k hk hpre]
    interval_cases k
    · rw [show (4 - 0 : Nat) = 3 + 1 from rfl,
        pokGetSoupGo_stop oracle 3 3 0 _ hok hret]
    · rw [show (4 - 1 : Nat) = 2 + 1 from rfl,
        pokGetSoupGo_stop oracle 3 2 1 _ hok hret]
    · rw [show (4 - 2 : Nat) = 1 + 1 from rfl,
        pokGetSoupGo_stop oracle 3 1 2 _ hok hret]
    · rw [show (4 - 3 : Nat) = 0 + 1 from rfl,
        pokGetSoupGo_stop oracle 3 0 3 _ hok hret]
  · intro hall
    rw [pokGetSoup_peel oracle 3 (by omega) (fun i hi => hall i (by omega))]
    rw [pokGetSoupGo_last oracle 3 3 _
      (retryable_ne_ok _ (hall 3 (by omega))) (by omega)]
    rfl
  · cases h : oracle 0 <;> simp [baseGetSoup, h]
  · intro hok
    cases h : oracle 0 <;> first
      | exact absurd h hok
      | simp [baseGetSoup, h]

/-- Witness for `c6_get_soup_retry_policy`: with a 503 on the first
attempt and success on the second, the Pokellector `get_soup` retries
once after a 1-second back-off and succeeds on attempt index 1. -/
theorem c6_get_soup_retry_policy_witness :
    pokGetSoup c6Oracle
      = { result := some 1, attempts := 2, sleeps := [1] } := by
  have h := (c6_get_soup_retry_policy c6Oracle).2.1 1 (by omega)
    (by decide) (by decide)
  simpa using h

/-- Claim C6 counterexample: the claim as stated ("every page fetch via
`get_soup` retries…") is false for `BaseScraper.get_soup`, the fetch used
by the TCG Collector adapter: on an HTTP 503 — a retryable status — it
makes exactly one attempt and returns `None`, even though a retry would
have succeeded (`c6Oracle` returns `ok` from attempt 1 on). -/
theorem c6_counterexample :
    c6Oracle 0 = .httpError 503
    ∧ retryableStatus 503 = true
    ∧ c6Oracle 1 = .ok
    ∧ baseGetSoup c6Oracle
        = { result := none, attempts := 1, sleeps := [] } := by
  refine ⟨?_, ?_, ?_, ?_⟩ <;> decide

theorem append_slash_cancel :
    ∀ (a b r s : List Char), '/' ∉ a → '/' ∉ b →
      a ++ '/' :: r = b ++ '/' :: s → a = b ∧ r = s := by
  intro a
  induction a with
  | nil =>
    intro b r s _ hb h
    cases b with
    | nil => simpa using h
    | cons y ys =>
      rw [List.nil_append] at h
      injection h with h1 h2
      rw [← h1] at hb
      exact absurd (List.mem_cons_self _ _) hb
  | cons x xs ih =>
    intro b r s ha hb h
    cases b with
    | nil =>
      rw [List.nil_append] at h
      injection h with h1 h2
      rw [h1] at ha
      exact absurd (List.mem_cons_self _ _) ha
    | cons y ys =>
      rw [List.cons_append, List.cons_append] at h
      injection h with h1 h2
      have ha' : '/' ∉ xs := fun hm => ha (List.mem_cons_of_mem _ hm)
      have hb' : '/' ∉ ys := fun hm => hb (List.mem_cons_of_mem _ hm)
      obtain ⟨hab, hrs⟩ := ih ys r s ha' hb' h2
      exact ⟨by rw [h1, hab], hrs⟩

/-- Claim C8 (amended): within a fixed output root and language, the pair
(set code, number) — the data from which the Pokellector download
identity `set_code-number` is derived — determines the destination file
path injectively, as long as the set code is slash-free (set codes are
slugs cleaned of every character outside `[\w-]`).  The identity string
itself is *not* injective and omits the source/language dimension: see
the counterexample. -/
theorem c8_fixed_config_path_injective
    (outDir lang sc₁ num₁ sc₂ num₂ : String)
    (h₁ : '/' ∉ sc₁.data) (h₂ : '/' ∉ sc₂.data)
    (h : pokFilepath outDir lang sc₁ num₁
      = pokFilepath outDir lang sc₂ num₂) :
    sc₁ = sc₂ ∧ num₁ = num₂ := by
  have hd := congrArg String.data h
  simp only [pokFilepath, String.data_append, List.append_assoc] at hd
  have hd1 := List.append_cancel_left hd
  have hd2 := List.append_cancel_left hd1
  have hd3 := List.append_cancel_left hd2
  have hd4 := List.append_cancel_left hd3
  simp only [List.singleton_append] at hd4
  obtain ⟨hsc, htail⟩ := append_slash_cancel _ _ _ _ h₁ h₂ hd4
  refine ⟨String.ext hsc, ?_⟩
  rw [hsc] at htail
  have htail2 := List.append_cancel_left htail
  have htail3 : num₁.data ++ ['.', 'p', 'n', 'g']
      = num₂.data ++ ['.', 'p', 'n', 'g'] := by
    injection htail2
  have hnum := List.append_cancel_right htail3
  exact String.ext hnum

/-- Witness for `c8_fixed_config_path_injective` at the concrete set code
`SV1` (slash-free) and number `007`: the hypotheses are satisfiable and
the conclusion follows from path equality. -/
theorem c8_fixed_config_path_injective_witness :
    '/' ∉ ("SV1" : String).data ∧ ("SV1" = "SV1" ∧ "007" = "007") :=
  ⟨by decide,
   c8_fixed_config_path_injective "out" "en" "SV1" "007" "SV1" "007"
     (by decide) (by decide) rfl⟩

/-- Claim C8 counterexample: the claim as stated is false.  `c8r1` and
`c8r2` are two distinct card records (they differ in `name`) that share
the download identity `Destined-Rivals-007` computed by
`PokemonCardScraper.download_image`; moreover the very same identity maps
to two different destination file paths under the `en` and `jp` language
configurations sharing one output root, so the identity does not
determine the file path.  (The TCG Collector `download_image` computes no
download identity at all.) -/
theorem c8_counterexample :
    (c8r1 ≠ c8r2
      ∧ pokDownloadId c8r1.setCode c8r1.number
          = pokDownloadId c8r2.setCode c8r2.number)
    ∧ pokFilepath "out" "en" c8r1.setCode c8r1.number
        ≠ pokFilepath "out" "jp" c8r1.setCode c8r1.number := by
  refine ⟨⟨?_, ?_⟩, ?_⟩ <;> decide

/-- Claim C9 (amended): `PokemonCardScraper.get_cards_from_set` tries the
candidate list URLs in the order `<url>/cards`, then `<url>/all`, then
the bare set URL — not bare-URL-first as claimed — stopping at the first
candidate that fetches and parses; if none parses, the set yields no
cards. -/
theorem c9_candidate_order (base : String) (w : String → Option PokPage)
    (si : SetInfo) :
    ((w (rstripSlash si.url ++ "/cards")).isSome →
      (pokGetCardsFromSet base w si).chosenUrl
        = some (rstripSlash si.url ++ "/cards"))
    ∧ (w (rstripSlash si.url ++ "/cards") = none →
        (w (rstripSlash si.url ++ "/all")).isSome →
        (pokGetCardsFromSet base w si).chosenUrl
          = some (rstripSlash si.url ++ "/all"))
    ∧ (w (rstripSlash si.url ++ "/cards") = none →
        w (rstripSlash si.url ++ "/all") = none →
        (w (rstripSlash si.url)).isSome →
        (pokGetCardsFromSet base w si).chosenUrl
          = some (rstripSlash si.url))
    ∧ (w (rstripSlash si.url ++ "/cards") = none →
        w (rstripSlash si.url ++ "/all") = none →
        w (rstripSlash si.url) = none →
        pokGetCardsFromSet base w si = ⟨[], none, 0⟩) := by
  refine ⟨?_, ?_, ?_, ?_⟩
  · intro h
    obtain ⟨pg, hpg⟩ := Option.isSome_iff_exists.mp h
    simp only [pokGetCardsFromSet, pokCandidates, firstFetch, hpg]
    cases he : extractCardDetailsFromPage pg base
        (rstripSlash si.url ++ "/cards") si <;> simp [he]
  · intro h1 h
    obtain ⟨pg, hpg⟩ := Option.isSome_iff_exists.mp h
    simp only [pokGetCardsFromSet, pokCandidates, firstFetch, h1, hpg]
    cases he : extractCardDetailsFromPage pg base
        (rstripSlash si.url ++ "/all") si <;> simp [he]
  · intro h1 h2 h
    obtain ⟨pg, hpg⟩ := Option.isSome_iff_exists.mp h
    simp only [pokGetCardsFromSet, pokCandidates, firstFetch, h1, h2, hpg]
    cases he : extractCardDetailsFromPage pg base
        (rstripSlash si.url) si <;> simp [he]
  · intro h1 h2 h3
    simp [pokGetCardsFromSet, pokCandidates, firstFetch, h1, h2, h3]

/-- Witness for `c9_candidate_order`: when only the bare set URL parses,
it is the one chosen (third conjunct, at a concrete fetch oracle). -/
theorem c9_candidate_order_witness :
    (pokGetCardsFromSet pokBaseEn c9wFetch c9Si).chosenUrl
      = some "https://www.pokellector.com/Test" := by
  have h := (c9_candidate_order pokBaseEn c9wFetch c9Si).2.2.1
    rfl rfl rfl
  simpa using h

/-- Claim C9 counterexample: the claim as stated is false.  With a fetch
oracle under which both the bare set URL and the `/cards` URL parse, the
code selects `/cards` — the bare URL, although it parses, is not chosen,
contradicting the claimed bare-URL-first order. -/
theorem c9_counterexample :
    (c9xFetch "https://www.pokellector.com/Test").isSome = true
    ∧ (pokGetCardsFromSet pokBaseEn c9xFetch c9Si).chosenUrl
        = some "https://www.pokellector.com/Test/cards"
    ∧ (pokGetCardsFromSet pokBaseEn c9xFetch c9Si).chosenUrl
        ≠ some "https://www.pokellector.com/Test" := by
  refine ⟨?_, ?_, ?_⟩ <;> decide

theorem takeWhile_all_append (p : Char → Bool) (l₁ l₂ : List Char)
    (h : ∀ c ∈ l₁, p c = true) :
    (l₁ ++ l₂).takeWhile p = l₁ ++ l₂.takeWhile p := by
  induction l₁ with
  | nil => simp
  | cons c rest ih =>
    have hc : p c = true := h c (List.mem_cons_self _ _)
    simp [List.takeWhile_cons, hc,
      ih (fun d hd => h d (List.mem_cons_of_mem _ hd))]

theorem dropWhile_all_append (p : Char → Bool) (l₁ l₂ : List Char)
    (h : ∀ c ∈ l₁, p c = true) :
    (l₁ ++ l₂).dropWhile p = l₂.dropWhile p := by
  induction l₁ with
  | nil => simp
  | cons c rest ih =>
    have hc : p c = true := h c (List.mem_cons_self _ _)
    simp [List.dropWhile_cons, hc,
      ih (fun d hd => h d (List.mem_cons_of_mem _ hd))]

/-- The first URL pattern `r'Card[-_](\d+)$'` matches a last segment of
the form `…-Card-<digits>` and captures exactly the digit suffix. -/
theorem matchCardSuffixL_append (pre NL : List Char) (hne : NL ≠ [])
    (hdig : ∀ c ∈ NL, c.isDigit = true) :
    matchCardSuffixL
        (pre ++ ('-' :: 'C' :: 'a' :: 'r' :: 'd' :: '-' :: []) ++ NL)
      = some NL := by
  have hrdig : ∀ c ∈ NL.reverse, Char.isDigit c = true := by
    intro c hc
    exact hdig c (List.mem_reverse.mp hc)
  have hrev : (pre ++ ('-' :: 'C' :: 'a' :: 'r' :: 'd' :: '-' :: [])
        ++ NL).reverse
      = NL.reverse
        ++ ('-' :: 'd' :: 'r' :: 'a' :: 'C' :: '-' :: pre.reverse) := by
    simp
  have htake : (NL.reverse
        ++ ('-' :: 'd' :: 'r' :: 'a' :: 'C' :: '-' :: pre.reverse)).takeWhile
          Char.isDigit = NL.reverse := by
    rw [takeWhile_all_append Char.isDigit NL.reverse _ hrdig]
    simp [List.takeWhile_cons]
  have hdrop : (NL.reverse
        ++ ('-' :: 'd' :: 'r' :: 'a' :: 'C' :: '-' :: pre.reverse)).dropWhile
          Char.isDigit
      = '-' :: 'd' :: 'r' :: 'a' :: 'C' :: '-' :: pre.reverse := by
    rw [dropWhile_all_append Char.isDigit NL.reverse _ hrdig]
    simp [List.dropWhile_cons]
  have hmap : ((('d' :: 'r' :: 'a' :: 'C' :: '-' :: pre.reverse).take 4).map
      Char.toLower) = ['d', 'r', 'a', 'c'] := rfl
  simp [matchCardSuffixL, hrev, htake, hdrop, hmap, hne]

/-- On such a last segment the URL-pattern cascade stops at the first
pattern with the digit suffix as the card number. -/
theorem extractNumberFromUrlPart_card (lastPart pre N : String)
    (hdata : lastPart.data
      = pre.data ++ ('-' :: 'C' :: 'a' :: 'r' :: 'd' :: '-' :: [])
        ++ N.data)
    (hne : N ≠ "") (hdig : ∀ c ∈ N.data, c.isDigit = true) :
    extractNumberFromUrlPart lastPart = some N := by
  have hne' : N.data ≠ [] := by
    intro hnil
    exact hne (String.ext (by rw [hnil]))
  have hm : matchCardSuffixL lastPart.data = some N.data := by
    rw [hdata]
    exact matchCardSuffixL_append pre.data N.data hne' hdig
  unfold extractNumberFromUrlPart
  rw [hm]

theorem zfill_three_le_length (s : String) : 3 ≤ (zfill s 3).length := by
  show 3 ≤ (List.replicate (3 - s.length) '0' ++ s.data).length
  rw [List.length_append, List.length_replicate]
  have h : s.data.length = s.length := rfl
  omega

/-- Claim C1 (amended): for every card URL whose last path segment ends in
`-Card-<N>` for a digit string `<N>`, if `_extract_card_details_from_page`
emits a record at all, its `number` field is `<N>` with leading zeros
stripped and then zero-padded to **at least** 3 digits (`str.zfill(3)`) —
exactly 3 digits whenever the stripped value has at most 3 digits, but
longer numbers are kept whole (see the counterexample with `N = 1234`). -/
theorem c1_card_suffix_number (pg : PokPage) (base cardUrl : String)
    (si : SetInfo) (pre N : String) (card : CardP)
    (h1 : lastSegment cardUrl = pre ++ "-Card-" ++ N)
    (h2 : N ≠ "") (h3 : ∀ c ∈ N.data, c.isDigit = true)
    (h4 : extractCardDetailsFromPage pg base cardUrl si = some card) :
    card.number = zfill (Nat.repr (digitsToNat N)) 3
    ∧ 3 ≤ card.number.length := by
  have hdata : (lastSegment cardUrl).data
      = pre.data ++ ('-' :: 'C' :: 'a' :: 'r' :: 'd' :: '-' :: [])
        ++ N.data := by
    rw [h1]
    simp [String.data_append]
  have hnum : pokPageNumber pg (lastSegment cardUrl) = some N := by
    unfold pokPageNumber
    rw [extractNumberFromUrlPart_card (lastSegment cardUrl) pre N hdata h2 h3]
  unfold extractCardDetailsFromPage at h4
  simp only [hnum] at h4
  cases him : pokExtractImage pg base with
  | none =>
    simp only [him] at h4
    exact Option.noConfusion h4
  | some raw =>
    simp only [him, Option.some.injEq] at h4
    rw [← h4]
    exact ⟨rfl, zfill_three_le_length _⟩

/-- Witness for `c1_card_suffix_number`: the URL
`…/Test-Set/Pikachu-Card-7` on a page with one card image yields a record
whose number is `"007"`. -/
theorem c1_card_suffix_number_witness :
    ∃ card, extractCardDetailsFromPage c1wPg pokBaseEn c1wUrl c1wSi
        = some card
      ∧ card.number = zfill (Nat.repr (digitsToNat "7")) 3
      ∧ card.number = "007" := by
  cases hx : extractCardDetailsFromPage c1wPg pokBaseEn c1wUrl c1wSi with
  | none => exact absurd hx (by decide)
  | some card =>
    have h := c1_card_suffix_number c1wPg pokBaseEn c1wUrl c1wSi
      "Pikachu" "7" card (by decide) (by decide) (by decide) hx
    refine ⟨card, rfl, h.1, ?_⟩
    rw [h.1]
    decide

/-- Claim C1 counterexample: the claim as stated ("zero-padded to exactly 3
digits") is false.  For the card URL `…/Thing-Card-1234` — whose last
segment ends in `-Card-<N>` for the digit string `N = 1234` — the emitted
record's `number` field is `"1234"`, which has 4 digits, not exactly 3:
`str.zfill(3)` only pads, it never truncates. -/
theorem c1_counterexample :
    (extractCardDetailsFromPage c1xPg pokBaseEn c1xUrl c1xSi).map
        CardP.number = some "1234"
    ∧ ("1234" : String).length ≠ 3 := by
  refine ⟨?_, ?_⟩ <;> decide

/-- Claim C5 (amended): the fail-closed behaviour holds for the Pokellector
extractors: when no strategy of the number cascade recovers a card number,
`_extract_card_details_from_page` and `_extract_card_from_container`
return `None` (logged as a warning in the source) and the set-level loops
simply skip the item.  The TCG Collector set extraction, however, does
emit records with the placeholder number `"0"` when no number element is
found (see the counterexample): there, an emitted record with no
recoverable number carries `number = "0"`. -/
theorem c5_no_number_fails_closed :
    (∀ (pg : PokPage) (base cardUrl : String) (si : SetInfo),
      pokPageNumber pg (lastSegment cardUrl) = none →
      extractCardDetailsFromPage pg base cardUrl si = none)
    ∧ (∀ (c : Container) (base cardUrl : String) (si : SetInfo),
      containerNumber c cardUrl = "" →
      extractCardFromContainer c base cardUrl si = none)
    ∧ (∀ (base : String) (si : TcgSetInfo) (lang : String)
        (c : TcgContainer) (card : CardT),
      c.numberElem = none →
      tcgExtractFromContainer base si lang c = some card →
      card.number = "0") := by
  refine ⟨?_, ?_, ?_⟩
  · intro pg base cardUrl si h
    unfold extractCardDetailsFromPage
    simp only [h]
  · intro c base cardUrl si h
    unfold extractCardFromContainer
    simp only [h]
    simp
    decide
  · intro base si lang c card hnum h
    unfold tcgExtractFromContainer at h
    cases himg : c.img with
    | none =>
      simp only [himg] at h
      exact Option.noConfusion h
    | some img =>
      simp only [himg] at h
      by_cases h1 : (!pyTruthy img.src && !pyTruthy img.dataSrc) = true
      · rw [if_pos h1] at h
        exact Option.noConfusion h
      · rw [if_neg h1] at h
        cases hu : pyOr img.dataSrc img.src with
        | none =>
          simp only [hu] at h
          exact Option.noConfusion h
        | some u =>
          simp only [hu] at h
          by_cases h2 : u.isEmpty = true
          · rw [if_pos h2] at h
            exact Option.noConfusion h
          · rw [if_neg h2] at h
            simp only [hnum] at h
            by_cases h3 : (if (!(pyStrip (img.alt.getD "")).isEmpty) = true
                then pyStrip (img.alt.getD "")
                else c.nameElem.getD "").isEmpty = true
            · rw [if_pos h3] at h
              exact Option.noConfusion h
            · rw [if_neg h3] at h
              obtain rfl := Option.some.inj h
              rfl

/-- Witness for `c5_no_number_fails_closed`: a card page whose URL slug
`mystery-card` holds no digits and whose content matches no number
selector, and a card container with neither a number element nor a number
in its URL, both fail extraction with `None`. -/
theorem c5_no_number_fails_closed_witness :
    extractCardDetailsFromPage c5wPg pokBaseEn c5wUrl c5wSi = none
    ∧ extractCardFromContainer c5wCont pokBaseEn c5wUrl c5wSi = none :=
  ⟨c5_no_number_fails_closed.1 c5wPg pokBaseEn c5wUrl c5wSi (by decide),
   c5_no_number_fails_closed.2.1 c5wCont pokBaseEn c5wUrl c5wSi (by decide)⟩

/-- Claim C5 counterexample: the claim as stated is false for the TCG
Collector adapter.  A card container with an image and a name but no
number element (no number recoverable by any strategy) is still emitted —
with the placeholder number `"0"` — by the extraction of
`TCGCollectorScraper.get_cards_from_set`, rather than being dropped. -/
theorem c5_counterexample :
    c5xCont.numberElem = none
    ∧ (tcgExtractFromContainer tcgBase c5xSi "en" c5xCont).map CardT.number
        = some "0" := by
  refine ⟨?_, ?_⟩ <;> decide

theorem mem_stripQueryL (l : List Char) : '?' ∉ stripQueryL l := by
  intro h
  have := List.mem_takeWhile_imp h
  simp at this

theorem isPrefixOf_append_self (p t : List Char) :
    p.isPrefixOf (p ++ t) = true :=
  List.isPrefixOf_iff_prefix.mpr (List.prefix_append _ _)

theorem strStartsWith_of_data (s pre : String) (t : List Char)
    (h : s.data = pre.data ++ t) : strStartsWith s pre = true := by
  unfold strStartsWith
  rw [h]
  exact isPrefixOf_append_self _ _

theorem strStartsWith_exists (s pre : String)
    (h : strStartsWith s pre = true) : ∃ t, s.data = pre.data ++ t := by
  unfold strStartsWith at h
  obtain ⟨t, ht⟩ := List.isPrefixOf_iff_prefix.mp h
  exact ⟨t, ht.symm⟩

theorem dropWhile_append_cases (p : Char → Bool) (l₁ l₂ : List Char) :
    (l₁ ++ l₂).dropWhile p
      = if (l₁.dropWhile p).isEmpty then l₂.dropWhile p
        else l₁.dropWhile p ++ l₂ := by
  induction l₁ with
  | nil => simp
  | cons c rest ih =>
    by_cases hc : p c
    · simp only [List.cons_append, List.dropWhile_cons, hc, if_true]
      exact ih
    · simp [List.dropWhile_cons, hc]

theorem schemeOf_https (base : String)
    (hb : strStartsWith base "https://" = true) : schemeOf base = "https" := by
  unfold schemeOf
  rw [if_pos hb]

theorem originOf_https (base : String)
    (hb : strStartsWith base "https://" = true) :
    ∃ t, (originOf base).data = "https://".data ++ t := by
  unfold originOf
  rw [if_pos hb]
  exact ⟨_, rfl⟩

theorem dirOf_https (base : String)
    (hb : strStartsWith base "https://" = true) :
    ∃ t, (dirOf base).data = "https://".data ++ t := by
  obtain ⟨r, hr⟩ := strStartsWith_exists base _ hb
  show ∃ t, (base.data.reverse.dropWhile (fun c => c ≠ '/')).reverse
    = "https://".data ++ t
  rw [hr, List.reverse_append, dropWhile_append_cases]
  by_cases hcase :
      ((r.reverse.dropWhile (fun c => c ≠ '/')).isEmpty) = true
  · rw [if_pos hcase]
    exact ⟨[], by simp⟩
  · rw [if_neg hcase]
    refine ⟨(r.reverse.dropWhile (fun c => c ≠ '/')).reverse, ?_⟩
    rw [List.reverse_append]
    rfl

theorem urljoin_https_abs (base u : String)
    (hb : strStartsWith base "https://" = true) :
    isAbsoluteUrl (urljoin base u) = true := by
  unfold urljoin
  by_cases h1 : (strStartsWith u "http://" || strStartsWith u "https://")
      = true
  · rw [if_pos h1]
    exact h1
  · rw [if_neg h1]
    by_cases h2 : strStartsWith u "//" = true
    · rw [if_pos h2]
      obtain ⟨t, ht⟩ := strStartsWith_exists u _ h2
      have hpre : strStartsWith (schemeOf base ++ ":" ++ u) "https://"
          = true := by
        apply strStartsWith_of_data _ _ t
        rw [schemeOf_https base hb]
        simp [String.data_append, ht]
      unfold isAbsoluteUrl
      rw [hpre, Bool.or_true]
    · rw [if_neg h2]
      by_cases h3 : strStartsWith u "/" = true
      · rw [if_pos h3]
        obtain ⟨t, hto⟩ := originOf_https base hb
        have hpre : strStartsWith (originOf base ++ u) "https://" = true := by
          apply strStartsWith_of_data _ _ (t ++ u.data)
          simp [String.data_append, hto, List.append_assoc]
        unfold isAbsoluteUrl
        rw [hpre, Bool.or_true]
      · rw [if_neg h3]
        by_cases h4 : u.isEmpty = true
        · rw [if_pos h4]
          unfold isAbsoluteUrl
          rw [hb, Bool.or_true]
        · rw [if_neg h4]
          obtain ⟨t, htd⟩ := dirOf_https base hb
          have hpre : strStartsWith (dirOf base ++ u) "https://" = true := by
            apply strStartsWith_of_data _ _ (t ++ u.data)
            simp [String.data_append, htd, List.append_assoc]
          unfold isAbsoluteUrl
          rw [hpre, Bool.or_true]

theorem stripQuery_abs (u : String) (h : isAbsoluteUrl u = true) :
    isAbsoluteUrl (stripQuery u) = true := by
  unfold isAbsoluteUrl at h ⊢
  rw [Bool.or_eq_true] at h ⊢
  cases h with
  | inl h =>
    left
    obtain ⟨t, ht⟩ := strStartsWith_exists u _ h
    apply strStartsWith_of_data _ _ (stripQueryL t)
    show stripQueryL u.data = _
    rw [ht]
    exact takeWhile_all_append _ _ _ (by decide)
  | inr h =>
    right
    obtain ⟨t, ht⟩ := strStartsWith_exists u _ h
    apply strStartsWith_of_data _ _ (stripQueryL t)
    show stripQueryL u.data = _
    rw [ht]
    exact takeWhile_all_append _ _ _ (by decide)

theorem urljoin_tcgBase_noquery (q : String) (hq : '?' ∉ q.data) :
    '?' ∉ (urljoin tcgBase q).data := by
  unfold urljoin
  by_cases h1 : (strStartsWith q "http://" || strStartsWith q "https://")
      = true
  · rw [if_pos h1]
    exact hq
  · rw [if_neg h1]
    by_cases h2 : strStartsWith q "//" = true
    · rw [if_pos h2]
      rw [show schemeOf tcgBase = "https" from rfl]
      intro hm
      simp only [String.data_append, List.mem_append] at hm
      rcases hm with (hm | hm) | hm
      · revert hm; decide
      · revert hm; decide
      · exact hq hm
    · rw [if_neg h2]
      by_cases h3 : strStartsWith q "/" = true
      · rw [if_pos h3]
        rw [show originOf tcgBase = "https://www.tcgcollector.com" from rfl]
        intro hm
        simp only [String.data_append, List.mem_append] at hm
        rcases hm with hm | hm
        · revert hm; decide
        · exact hq hm
      · rw [if_neg h3]
        by_cases h4 : q.isEmpty = true
        · rw [if_pos h4]
          decide
        · rw [if_neg h4]
          rw [show dirOf tcgBase = "https://" from rfl]
          intro hm
          simp only [String.data_append, List.mem_append] at hm
          rcases hm with hm | hm
          · revert hm; decide
          · exact hq hm

theorem pokImageLoop_abs (pg : PokPage) (base : String)
    (hb : strStartsWith base "https://" = true) :
    ∀ (sels : List String) (acc : Option String),
      (∀ s, acc = some s → s.isEmpty = true ∨ isAbsoluteUrl s = true) →
      ∀ s, pokImageLoop pg base sels acc = some s →
        s.isEmpty = true ∨ isAbsoluteUrl s = true := by
  intro sels
  induction sels with
  | nil =>
    intro acc hacc s h
    exact hacc s h
  | cons sel rest ih =>
    intro acc hacc s h
    unfold pokImageLoop at h
    cases hhit : pg.imgSelectorHit sel with
    | none =>
      simp only [hhit] at h
      exact ih acc hacc s h
    | some img =>
      simp only [hhit] at h
      cases hu1 : pyOr img.src (pyOr img.dataSrc img.dataLazySrc) with
      | none =>
        simp only [hu1] at h
        exact ih none (fun t ht => Option.noConfusion ht) s h
      | some s0 =>
        simp only [hu1] at h
        by_cases hc : (!s0.isEmpty && !(strStartsWith s0 "http://"
            || strStartsWith s0 "https://")) = true
        · rw [if_pos hc] at h
          have habs : isAbsoluteUrl (urljoin base s0) = true :=
            urljoin_https_abs base s0 hb
          by_cases hc2 : (!(urljoin base s0).isEmpty
              && endsWithImageExt (urljoin base s0)) = true
          · rw [if_pos hc2] at h
            obtain rfl := Option.some.inj h
            exact Or.inr habs
          · rw [if_neg hc2] at h
            refine ih (some (urljoin base s0)) ?_ s h
            intro t ht
            obtain rfl := Option.some.inj ht
            exact Or.inr habs
        · rw [if_neg hc] at h
          have hprop : s0.isEmpty = true ∨ isAbsoluteUrl s0 = true := by
            by_cases he : s0.isEmpty = true
            · exact Or.inl he
            · right
              unfold isAbsoluteUrl
              cases habs : (strStartsWith s0 "http://"
                  || strStartsWith s0 "https://") with
              | true => rfl
              | false =>
                exfalso
                apply hc
                simp [he, habs]
          by_cases hc2 : (!s0.isEmpty && endsWithImageExt s0) = true
          · rw [if_pos hc2] at h
            obtain rfl := Option.some.inj h
            exact hprop
          · rw [if_neg hc2] at h
            refine ih (some s0) ?_ s h
            intro t ht
            obtain rfl := Option.some.inj ht
            exact hprop

theorem pokExtractImage_abs (pg : PokPage) (base : String)
    (hb : strStartsWith base "https://" = true) (raw : String)
    (h : pokExtractImage pg base = some raw) :
    isAbsoluteUrl raw = true := by
  unfold pokExtractImage at h
  cases hl : pokImageLoop pg base imgSelectors none with
  | none =>
    simp only [hl] at h
    exact Option.noConfusion h
  | some s =>
    simp only [hl] at h
    by_cases he : s.isEmpty = true
    · rw [if_pos he] at h
      exact Option.noConfusion h
    · rw [if_neg he] at h
      obtain rfl := Option.some.inj h
      rcases pokImageLoop_abs pg base hb imgSelectors none
        (fun t ht => Option.noConfusion ht) s hl with hemp | habs
      · exact absurd hemp he
      · exact habs

/-- Claim C7 (amended): the invariant holds for every record emitted by the
Pokellector card-page extractor and by the TCG Collector container
extractor — their image URLs are absolute (explicitly `http(s)`-schemed)
with the query string stripped.  It fails for records emitted by the
Pokellector container extractor, which neither strips query strings nor
guards against an empty image URL (see the counterexample). -/
theorem c7_image_url_absolute_no_query :
    (∀ (pg : PokPage) (base cardUrl : String) (si : SetInfo) (card : CardP),
      base = pokBaseEn ∨ base = pokBaseJp →
      extractCardDetailsFromPage pg base cardUrl si = some card →
      isAbsoluteUrl card.imgUrl = true ∧ '?' ∉ card.imgUrl.data)
    ∧ (∀ (si : TcgSetInfo) (lang : String) (c : TcgContainer)
        (card : CardT),
      tcgExtractFromContainer tcgBase si lang c = some card →
      isAbsoluteUrl card.imageUrl = true ∧ '?' ∉ card.imageUrl.data) := by
  constructor
  · intro pg base cardUrl si card hb h
    have hbb : strStartsWith base "https://" = true := by
      rcases hb with rfl | rfl <;> decide
    unfold extractCardDetailsFromPage at h
    cases hn : pokPageNumber pg (lastSegment cardUrl) with
    | none =>
      simp only [hn] at h
      exact Option.noConfusion h
    | some n0 =>
      simp only [hn] at h
      cases him : pokExtractImage pg base with
      | none =>
        simp only [him] at h
        exact Option.noConfusion h
      | some raw =>
        simp only [him, Option.some.injEq] at h
        rw [← h]
        exact ⟨stripQuery_abs raw (pokExtractImage_abs pg base hbb raw him),
          mem_stripQueryL raw.data⟩
  · intro si lang c card h
    unfold tcgExtractFromContainer at h
    cases himg : c.img with
    | none =>
      simp only [himg] at h
      exact Option.noConfusion h
    | some img =>
      simp only [himg] at h
      by_cases h1 : (!pyTruthy img.src && !pyTruthy img.dataSrc) = true
      · rw [if_pos h1] at h
        exact Option.noConfusion h
      · rw [if_neg h1] at h
        cases hu : pyOr img.dataSrc img.src with
        | none =>
          simp only [hu] at h
          exact Option.noConfusion h
        | some u =>
          simp only [hu] at h
          by_cases h2 : u.isEmpty = true
          · rw [if_pos h2] at h
            exact Option.noConfusion h
          · rw [if_neg h2] at h
            by_cases h3 : (if (!(pyStrip (img.alt.getD "")).isEmpty) = true
                then pyStrip (img.alt.getD "")
                else c.nameElem.getD "").isEmpty = true
            · rw [if_pos h3] at h
              exact Option.noConfusion h
            · rw [if_neg h3] at h
              obtain rfl := Option.some.inj h
              exact ⟨urljoin_https_abs tcgBase _ (by decide),
                urljoin_tcgBase_noquery _ (mem_stripQueryL u.data)⟩

/-- Witness for `c7_image_url_absolute_no_query`: a concrete emission of
each extractor, whose image URLs are checked absolute and query-free. -/
theorem c7_image_url_absolute_no_query_witness :
    (∃ card, extractCardDetailsFromPage c7wPg pokBaseEn c7wUrl c7wSi
        = some card
      ∧ isAbsoluteUrl card.imgUrl = true ∧ '?' ∉ card.imgUrl.data)
    ∧ (∃ card, tcgExtractFromContainer tcgBase c7wSiT "en" c7wContT
        = some card
      ∧ isAbsoluteUrl card.imageUrl = true ∧ '?' ∉ card.imageUrl.data) := by
  constructor
  · cases hx : extractCardDetailsFromPage c7wPg pokBaseEn c7wUrl c7wSi with
    | none => exact absurd hx (by decide)
    | some card =>
      exact ⟨card, rfl, c7_image_url_absolute_no_query.1 c7wPg pokBaseEn
        c7wUrl c7wSi card (Or.inl rfl) hx⟩
  · cases hx : tcgExtractFromContainer tcgBase c7wSiT "en" c7wContT with
    | none => exact absurd hx (by decide)
    | some card =>
      exact ⟨card, rfl, c7_image_url_absolute_no_query.2 c7wSiT "en"
        c7wContT card hx⟩

/-- Claim C7 counterexample: the claim as stated is false.  The Pokellector
container extractor emits a record whose `img_url` retains its query
string: for a container image with `src="/images/card.png?v=2"` the
emitted record carries
`https://www.pokellector.com/images/card.png?v=2` — resolved against the
base but with `?v=2` kept, because `_extract_card_from_container` never
splits off the query (line 457 versus line 692). -/
theorem c7_counterexample :
    (extractCardFromContainer c7xCont pokBaseEn c7xUrl c7xSi).map
        CardP.imgUrl
      = some "https://www.pokellector.com/images/card.png?v=2"
    ∧ '?' ∈ ("https://www.pokellector.com/images/card.png?v=2"
        : String).data := by
  refine ⟨?_, ?_⟩ <;> decide

end Scraper
